import Mathlib

/-!
# stakepoold RPC client: session establishment and ticket reconciliation

A shallow embedding of `backend/stakepoold/rpcclient.go`:

* `connectNodeRPC`, `connectWalletRPC`: the two session establishers;
* `walletGetTickets`: the reconciliation pass that sorts the wallet's tickets
  into `ignoredLowFeeTickets` and `liveTickets`.

Remote services and helpers that live outside the file (the wallet and node
RPC servers, the fee-policy evaluator, the address, hash and transaction
decoders) are parameters of the model.  A remote answer may depend on
everything that happened before in the pass, so each remote call receives the
list of events issued so far (most recent first) and the pass records every
remote call, with its answer, in that list.  Logging is not modelled.
-/

namespace Stakepoold

/-! ## Data model -/

/-- The type `semver`: three unsigned version fields. -/
structure semver where
  major : Nat
  minor : Nat
  patch : Nat
deriving DecidableEq, Repr

/-- Go `error` values produced or passed on by the file. -/
inductive Error where
  | external (msg : String)
  | noRPCVersion
  | incompatibleNode (advertised required : semver)
deriving DecidableEq, Repr

/-- A Go map, read through key lookup: `none` is an absent key. -/
abbrev GoMap (K V : Type) := K → Option V

/-- The result of `make(map[K]V)`. -/
def GoMap.empty {K V : Type} : GoMap K V := fun _ => none

/-- The assignment `m[k] = v`. -/
def GoMap.set {K V : Type} [DecidableEq K] (m : GoMap K V) (k : K) (v : V) : GoMap K V :=
  fun k' => if k' = k then some v else m k'

/-- The value `chainhash.Hash`: a 32-byte array, read as a number. -/
structure Hash where
  val : Nat
deriving DecidableEq, Repr

/-- A decoded `dcrutil.Address`. -/
structure Address where
  enc : String
deriving DecidableEq, Repr

/-- A decoded transaction, as returned by `MsgTxFromHex`. -/
structure MsgTx where
  raw : String
deriving DecidableEq, Repr

/-- The part of `wire.BlockHeader` the pass reads: the `uint32` height. -/
structure BlockHeader where
  Height : Nat
deriving DecidableEq, Repr

/-- One element of `gt.Details`. -/
structure TxDetail where
  Address : String
deriving DecidableEq, Repr

/-- The fields of a `GetTransaction` answer that the pass reads. -/
structure GetTransactionResult where
  TxID : String
  Hex : String
  BlockHash : String
  Details : List TxDetail
deriving DecidableEq, Repr

/-- The field of `userdata.UserVotingConfig` that the pass reads. -/
structure UserVotingConfig where
  MultiSigAddress : String
deriving DecidableEq, Repr

/-- The fields of `appContext` that the pass reads. -/
structure appContext where
  userVotingConfig : GoMap String UserVotingConfig
  addedLowFeeTicketsMSA : GoMap Hash String

/-- The conversion `int32(x)` of a `uint32` value. -/
def toInt32 (x : Nat) : Int :=
  if x % 2 ^ 32 < 2 ^ 31 then ((x % 2 ^ 32 : Nat) : Int) else ((x % 2 ^ 32 : Nat) : Int) - 2 ^ 32

/-! ## Version gate and session establishment -/

def requiredChainServerAPI : semver := { major := 5, minor := 0, patch := 0 }

def requiredWalletAPI : semver := { major := 5, minor := 0, patch := 0 }

/-- Modelled from the spec: the function `semverCompatible` is called by the
file but defined elsewhere in the repository.  The advertised major version
must equal the required major version and the advertised minor version must be
at least the required minor version; the patch field is not compared. -/
def semverCompatible (required actual : semver) : Bool :=
  decide (actual.major = required.major) && decide (required.minor ≤ actual.minor)

/-- The fields of `config` that the two establishers read. -/
structure config where
  DcrdCert : String
  DcrdHost : String
  DcrdUser : String
  DcrdPassword : String
  WalletCert : String
  WalletHost : String
  WalletUser : String
  WalletPassword : String

/-- The value `rpcclient.ConnConfig` built by the establishers. -/
structure ConnConfig where
  Host : String
  Endpoint : String
  User : String
  Pass : String
  Certificates : List Nat
deriving DecidableEq, Repr

/-- A handler set, as built by `getNodeNtfnHandlers` or `getWalletNtfnHandlers`. -/
structure NotificationHandlers where
  tag : Nat
deriving DecidableEq, Repr

/-- A non-nil `*rpcclient.Client`. -/
structure Client where
  id : Nat
deriving DecidableEq, Repr

/-- One value of the map returned by `Version()`. -/
structure VersionResult where
  Major : Nat
  Minor : Nat
  Patch : Nat
deriving DecidableEq, Repr

/-- The collaborators of the establishers: the certificate reader, the handler
builders, the client constructor and the remote `Version` query. -/
structure SessionEnv where
  ReadFile : String → Except Error (List Nat)
  getNodeNtfnHandlers : appContext → ConnConfig → NotificationHandlers
  getWalletNtfnHandlers : config → NotificationHandlers
  New : ConnConfig → NotificationHandlers → Except Error Client
  Version : Client → Except Error (GoMap String VersionResult)

/-- A read `ver[key]` of the version map: the zero value when the key is absent. -/
def versionOf (ver : GoMap String VersionResult) (key : String) : VersionResult :=
  (ver key).getD { Major := 0, Minor := 0, Patch := 0 }

/-- The function `connectNodeRPC`: client (nil is `none`), version, error. -/
def connectNodeRPC (env : SessionEnv) (ctx : appContext) (cfg : config) :
    Option Client × semver × Option Error :=
  let nodeVer : semver := { major := 0, minor := 0, patch := 0 }
  match env.ReadFile cfg.DcrdCert with
  | .error err => (none, nodeVer, some err)
  | .ok dcrdCert =>
    let connCfgDaemon : ConnConfig :=
      { Host := cfg.DcrdHost, Endpoint := "ws", User := cfg.DcrdUser,
        Pass := cfg.DcrdPassword, Certificates := dcrdCert }
    let ntfnHandlers := env.getNodeNtfnHandlers ctx connCfgDaemon
    match env.New connCfgDaemon ntfnHandlers with
    | .error err => (none, nodeVer, some err)
    | .ok dcrdClient =>
      match env.Version dcrdClient with
      | .error _ => (none, nodeVer, some Error.noRPCVersion)
      | .ok ver =>
        let dcrdVer := versionOf ver "dcrdjsonrpcapi"
        let nodeVer : semver :=
          { major := dcrdVer.Major, minor := dcrdVer.Minor, patch := dcrdVer.Patch }
        if !semverCompatible requiredChainServerAPI nodeVer then
          (none, nodeVer, some (Error.incompatibleNode nodeVer requiredChainServerAPI))
        else
          (some dcrdClient, nodeVer, none)

/-- The function `connectWalletRPC`: client (nil is `none`), version, error.
The incompatible branch only logs a warning. -/
def connectWalletRPC (env : SessionEnv) (cfg : config) :
    Option Client × semver × Option Error :=
  let walletVer : semver := { major := 0, minor := 0, patch := 0 }
  match env.ReadFile cfg.WalletCert with
  | .error err => (none, walletVer, some err)
  | .ok dcrwCert =>
    let connCfgWallet : ConnConfig :=
      { Host := cfg.WalletHost, Endpoint := "ws", User := cfg.WalletUser,
        Pass := cfg.WalletPassword, Certificates := dcrwCert }
    let ntfnHandlers := env.getWalletNtfnHandlers cfg
    match env.New connCfgWallet ntfnHandlers with
    | .error err => (none, walletVer, some err)
    | .ok dcrwClient =>
      match env.Version dcrwClient with
      | .error _ => (none, walletVer, some Error.noRPCVersion)
      | .ok ver =>
        let dcrwVer := versionOf ver "dcrwalletjsonrpcapi"
        let walletVer : semver :=
          { major := dcrwVer.Major, minor := dcrwVer.Minor, patch := dcrwVer.Patch }
        if !semverCompatible requiredWalletAPI walletVer then
          (some dcrwClient, walletVer, none)
        else
          (some dcrwClient, walletVer, none)

/-! ## The reconciliation pass -/

/-- A remote call issued by the pass, with the answer it received. -/
inductive Event where
  | GetTickets (res : Except Error (List Hash))
  | GetTransactionAsync (ticket : Hash)
  | Receive (index : Nat) (ticket : Hash) (res : Except Error GetTransactionResult)
  | GetBlockHeader (blockHash : Hash) (res : Except Error BlockHeader)
  | evaluateStakePoolTicket (msgTx : MsgTx) (height : Int) (addr : Address)
      (res : Bool × Option Error)

/-- The collaborators of the pass.  The four remote calls see the events issued
so far, most recent first; the three decoders are functions of their string. -/
structure Env where
  GetTickets : List Event → Except Error (List Hash)
  Receive : List Event → Nat → Hash → Except Error GetTransactionResult
  GetBlockHeader : List Event → Hash → Except Error BlockHeader
  evaluateStakePoolTicket : List Event → MsgTx → Int → Address → Bool × Option Error
  DecodeAddress : String → Except Error Address
  NewHashFromStr : String → Except Error Hash
  MsgTxFromHex : String → Option MsgTx

/-- The local variables of `walletGetTickets`, and the events issued so far. -/
structure PassState where
  blockHashToHeightCache : GoMap Hash Int
  ignoredLowFeeTickets : GoMap Hash String
  liveTickets : GoMap Hash String
  normalFee : Nat
  counter : Nat
  trace : List Event

/-- How an iteration of the loop over `gt.Details` ends. -/
inductive LoopCtl where
  | cont
  | brk
deriving DecidableEq, Repr

/-- The purchase-height resolution: a cached height is returned without a
remote call, otherwise `GetBlockHeader` is issued and only a successful answer
is stored.  The result `none` is the failure branch. -/
def resolveHeight (env : Env) (ticketBlockHash : Hash) (s : PassState) :
    Option Int × PassState :=
  match s.blockHashToHeightCache ticketBlockHash with
  | some height => (some height, s)
  | none =>
    match env.GetBlockHeader s.trace ticketBlockHash with
    | .error err =>
      (none, { s with trace := Event.GetBlockHeader ticketBlockHash (.error err) :: s.trace })
    | .ok gbh =>
      (some (toInt32 gbh.Height),
        { s with
          blockHashToHeightCache :=
            s.blockHashToHeightCache.set ticketBlockHash (toInt32 gbh.Height)
          trace := Event.GetBlockHeader ticketBlockHash (.ok gbh) :: s.trace })

/-- The fee check that ends an iteration: `evaluateStakePoolTicket` is called
and its boolean alone selects the mapping that receives `hash`; the error it
returns is only logged. -/
def feeStep (env : Env) (hash : Hash) (multiSigAddress : String) (msgTx : MsgTx)
    (ticketBlockHeight : Int) (addr : Address) (s : PassState) : PassState :=
  let res := env.evaluateStakePoolTicket s.trace msgTx ticketBlockHeight addr
  let s1 : PassState :=
    { s with
      trace := Event.evaluateStakePoolTicket msgTx ticketBlockHeight addr res :: s.trace }
  if res.1 then
    { s1 with
      normalFee := s1.normalFee + 1
      liveTickets := s1.liveTickets.set hash multiSigAddress }
  else
    { s1 with ignoredLowFeeTickets := s1.ignoredLowFeeTickets.set hash multiSigAddress }

/-- One iteration of the loop over `gt.Details`, for the detail entry `d`.
Every `continue` of the source is a `continue` of this loop. -/
def detailBody (env : Env) (ctx : appContext) (userVotingConfig : GoMap String UserVotingConfig)
    (gt : GetTransactionResult) (d : TxDetail) (s : PassState) : LoopCtl × PassState :=
  match userVotingConfig d.Address with
  | none => (.cont, s)
  | some uvc =>
    match env.DecodeAddress d.Address with
    | .error _ => (.cont, s)
    | .ok addr =>
      match env.NewHashFromStr gt.TxID with
      | .error _ => (.cont, s)
      | .ok hash =>
        match ctx.addedLowFeeTicketsMSA hash with
        | some _ =>
          (.brk, { s with liveTickets := s.liveTickets.set hash uvc.MultiSigAddress })
        | none =>
          match env.MsgTxFromHex gt.Hex with
          | none => (.cont, s)
          | some msgTx =>
            match env.NewHashFromStr gt.BlockHash with
            | .error _ => (.cont, s)
            | .ok ticketBlockHash =>
              match resolveHeight env ticketBlockHash s with
              | (none, s1) => (.cont, s1)
              | (some ticketBlockHeight, s1) =>
                (.brk, feeStep env hash uvc.MultiSigAddress msgTx ticketBlockHeight addr s1)

/-- The loop `for i := range gt.Details`. -/
def detailsLoop (env : Env) (ctx : appContext) (userVotingConfig : GoMap String UserVotingConfig)
    (gt : GetTransactionResult) : List TxDetail → PassState → PassState
  | [], s => s
  | d :: rest, s =>
    match detailBody env ctx userVotingConfig gt d s with
    | (.brk, s1) => s1
    | (.cont, s1) => detailsLoop env ctx userVotingConfig gt rest s1

/-- The body of the loop over `promises`, for the promise of `ticket`. -/
def promiseBody (env : Env) (ctx : appContext) (userVotingConfig : GoMap String UserVotingConfig)
    (ticket : Hash) (s : PassState) : PassState :=
  let index := s.counter
  let res := env.Receive s.trace index ticket
  let s1 : PassState :=
    { s with counter := s.counter + 1, trace := Event.Receive index ticket res :: s.trace }
  match res with
  | .error _ => s1
  | .ok gt => detailsLoop env ctx userVotingConfig gt gt.Details s1

/-- The loop `for _, p := range promises`. -/
def receiveLoop (env : Env) (ctx : appContext) (userVotingConfig : GoMap String UserVotingConfig) :
    List Hash → PassState → PassState
  | [], s => s
  | ticket :: rest, s =>
    receiveLoop env ctx userVotingConfig rest (promiseBody env ctx userVotingConfig ticket s)

/-- The loop that issues `GetTransactionAsync` for every listed ticket. -/
def dispatchLoop : List Hash → List Event → List Event
  | [], tr => tr
  | ticket :: rest, tr => dispatchLoop rest (Event.GetTransactionAsync ticket :: tr)

/-- The state of the pass when the loop over `promises` starts. -/
def startState (env : Env) (tickets : List Hash) : PassState :=
  { blockHashToHeightCache := GoMap.empty
    ignoredLowFeeTickets := GoMap.empty
    liveTickets := GoMap.empty
    normalFee := 0
    counter := 0
    trace := dispatchLoop tickets [Event.GetTickets (env.GetTickets [])] }

/-- The pass `walletGetTickets`, with its final local state.  The snapshot
`userVotingConfig` is the copy of `ctx.userVotingConfig` taken under the lock. -/
def walletGetTicketsRun (env : Env) (ctx : appContext) : PassState :=
  let userVotingConfig := ctx.userVotingConfig
  match env.GetTickets [] with
  | .error err =>
    { blockHashToHeightCache := GoMap.empty
      ignoredLowFeeTickets := GoMap.empty
      liveTickets := GoMap.empty
      normalFee := 0
      counter := 0
      trace := [Event.GetTickets (.error err)] }
  | .ok tickets => receiveLoop env ctx userVotingConfig tickets (startState env tickets)

/-- The function `walletGetTickets`: it returns `ignoredLowFeeTickets` first and
`liveTickets` second. -/
def walletGetTickets (env : Env) (ctx : appContext) : GoMap Hash String × GoMap Hash String :=
  let s := walletGetTicketsRun env ctx
  (s.ignoredLowFeeTickets, s.liveTickets)

/-! ## Notions used to state the properties -/

/-- The height that the event `e` makes the pass store for `blockHash`. -/
def Event.storedFor (e : Event) (blockHash : Hash) : Option Int :=
  match e with
  | .GetBlockHeader h (.ok gbh) => if h = blockHash then some (toInt32 gbh.Height) else none
  | .GetBlockHeader _ (.error _) => none
  | .GetTickets _ => none
  | .GetTransactionAsync _ => none
  | .Receive _ _ _ => none
  | .evaluateStakePoolTicket _ _ _ _ => none

/-- The cached height that the events of `tr` account for: the height of the
earliest successful `GetBlockHeader` for `blockHash`, converted as the pass
converts it. -/
def storedHeight : List Event → Hash → Option Int
  | [], _ => none
  | e :: tr, blockHash =>
    match storedHeight tr blockHash with
    | some height => some height
    | none => e.storedFor blockHash

/-- An earlier `GetBlockHeader` for `blockHash` succeeded. -/
def SucceededBefore (tr : List Event) (blockHash : Hash) : Prop :=
  ∃ gbh, Event.GetBlockHeader blockHash (.ok gbh) ∈ tr

/-- A resolve of `blockHash` in state `s` issues `GetBlockHeader`. -/
def IssuesLookup (env : Env) (blockHash : Hash) (s : PassState) : Prop :=
  ∃ res, (resolveHeight env blockHash s).2.trace = Event.GetBlockHeader blockHash res :: s.trace

/-- The cache of a pass holds exactly what the successful lookups of the pass
stored.  It holds when the pass starts and every step of the pass keeps it. -/
def CacheMatchesLookups (s : PassState) : Prop :=
  ∀ blockHash, s.blockHashToHeightCache blockHash = storedHeight s.trace blockHash

/-! ## Concrete collaborators -/

def exCtxEmpty : appContext :=
  { userVotingConfig := GoMap.empty, addedLowFeeTicketsMSA := GoMap.empty }

def exConfig : config :=
  { DcrdCert := "dcrd.cert", DcrdHost := "node:9109", DcrdUser := "u", DcrdPassword := "p",
    WalletCert := "wallet.cert", WalletHost := "wallet:9110", WalletUser := "w",
    WalletPassword := "q" }

/-- Both remote servers advertise version 6.1.0 under every key. -/
def exSessionEnv : SessionEnv :=
  { ReadFile := fun _ => .ok [1, 2]
    getNodeNtfnHandlers := fun _ _ => { tag := 0 }
    getWalletNtfnHandlers := fun _ => { tag := 1 }
    New := fun _ handlers => .ok { id := handlers.tag }
    Version := fun _ => .ok (fun _ => some { Major := 6, Minor := 1, Patch := 0 }) }

/-- A wallet whose `GetTickets` fails. -/
def exEnvListFails : Env :=
  { GetTickets := fun _ => .error (Error.external "wallet down")
    Receive := fun _ _ _ => .error (Error.external "no such transaction")
    GetBlockHeader := fun _ _ => .ok { Height := 7 }
    evaluateStakePoolTicket := fun _ _ _ _ => (true, none)
    DecodeAddress := fun a => .ok { enc := a }
    NewHashFromStr := fun t => .ok { val := t.length }
    MsgTxFromHex := fun x => some { raw := x } }

/-! ## Notions used to state the properties of the pass -/

/-- The first entry of the detail list, in list order, whose address is a key of
the voting-configuration snapshot. -/
def firstMatch (userVotingConfig : GoMap String UserVotingConfig) (details : List TxDetail) :
    Option TxDetail :=
  details.find? (fun d => (userVotingConfig d.Address).isSome)

/-- The ticket hash that a received answer carries, when its `TxID` parses. -/
def Event.receivedHash (env : Env) (e : Event) : Option Hash :=
  match e with
  | .Receive _ _ (.ok gt) =>
    match env.NewHashFromStr gt.TxID with
    | .ok hash => some hash
    | .error _ => none
  | .Receive _ _ (.error _) => none
  | .GetTickets _ => none
  | .GetTransactionAsync _ => none
  | .GetBlockHeader _ _ => none
  | .evaluateStakePoolTicket _ _ _ _ => none

/-- The ticket hashes of the transactions received so far, most recent first. -/
def receivedHashes (env : Env) (tr : List Event) : List Hash :=
  tr.filterMap (Event.receivedHash env)

/-- The state of the pass when it turns to the promise that follows those of
`done`, in a pass over `tickets`. -/
def stateAfter (env : Env) (ctx : appContext) (tickets done : List Hash) : PassState :=
  receiveLoop env ctx ctx.userVotingConfig done (startState env tickets)

/-- What the work on one received transaction `gt` may change between `s` and
`s1`: the promise counter and the received hashes stay, and at most one mapping
entry is written, under the hash parsed from `gt.TxID`; an entry of the ignored
mapping is written only for an unflagged hash. -/
def TicketEffect (env : Env) (ctx : appContext) (gt : GetTransactionResult)
    (s s1 : PassState) : Prop :=
  s1.counter = s.counter ∧ receivedHashes env s1.trace = receivedHashes env s.trace ∧
  ((s1.liveTickets = s.liveTickets ∧ s1.ignoredLowFeeTickets = s.ignoredLowFeeTickets) ∨
    ∃ hash msa, env.NewHashFromStr gt.TxID = .ok hash ∧
      ((s1.liveTickets = s.liveTickets.set hash msa ∧
          s1.ignoredLowFeeTickets = s.ignoredLowFeeTickets) ∨
        (ctx.addedLowFeeTicketsMSA hash = none ∧
          s1.ignoredLowFeeTickets = s.ignoredLowFeeTickets.set hash msa ∧
          s1.liveTickets = s.liveTickets)))

/-- What one turn of the loop over the promises may change between `s` and
`s1`: either no mapping entry is written, or exactly one is, under the hash
that this turn received. -/
def PromiseEffect (env : Env) (ctx : appContext) (s s1 : PassState) : Prop :=
  s1.counter = s.counter + 1 ∧
  ∃ new : List Hash, receivedHashes env s1.trace = new ++ receivedHashes env s.trace ∧
    ((s1.liveTickets = s.liveTickets ∧ s1.ignoredLowFeeTickets = s.ignoredLowFeeTickets) ∨
      ∃ hash msa, new = [hash] ∧
        ((s1.liveTickets = s.liveTickets.set hash msa ∧
            s1.ignoredLowFeeTickets = s.ignoredLowFeeTickets) ∨
          (ctx.addedLowFeeTicketsMSA hash = none ∧
            s1.ignoredLowFeeTickets = s.ignoredLowFeeTickets.set hash msa ∧
            s1.liveTickets = s.liveTickets)))

/-- No flagged hash is a key of the ignored mapping. -/
def NoFlaggedIgnored (ctx : appContext) (s : PassState) : Prop :=
  ∀ hash, (ctx.addedLowFeeTicketsMSA hash).isSome → s.ignoredLowFeeTickets hash = none

/-- Every key of the two mappings was received, and no hash is a key of both. -/
def KeysReceivedAndDisjoint (env : Env) (s : PassState) : Prop :=
  (∀ hash, (s.liveTickets hash).isSome ∨ (s.ignoredLowFeeTickets hash).isSome →
    hash ∈ receivedHashes env s.trace) ∧
  ∀ hash, ¬ ((s.ignoredLowFeeTickets hash).isSome ∧ (s.liveTickets hash).isSome)

/-- The state right after the promise of `ticket` delivered `gt`. -/
def afterReceive (s : PassState) (ticket : Hash) (gt : GetTransactionResult) : PassState :=
  { s with
    counter := s.counter + 1
    trace := Event.Receive s.counter ticket (.ok gt) :: s.trace }

/-- What the pass obtains for one ticket when every step of its processing
succeeds: the received transaction, the matched detail entry and its snapshot
entry, the decoded address, the ticket hash, the decoded transaction, the
purchase block hash and height, and the two values returned by the evaluator. -/
structure TicketFacts where
  gt : GetTransactionResult
  d : TxDetail
  uvc : UserVotingConfig
  addr : Address
  hash : Hash
  msgTx : MsgTx
  blockHash : Hash
  height : Int
  valid : Bool
  err : Option Error

/-- Every step of the processing of `ticket` succeeds when the pass turns to it
in state `s`, with the results `f`: the detail fetch, the owner match (the first
entry whose address is a key of the snapshot), the address decode and the hash
parse and, for an unflagged ticket, the raw-transaction parse, the block-hash
parse and the purchase-height resolution; `f.valid` and `f.err` are what the
evaluator then returns. -/
def SucceedsAt (env : Env) (ctx : appContext) (s : PassState) (ticket : Hash)
    (f : TicketFacts) : Prop :=
  env.Receive s.trace s.counter ticket = .ok f.gt ∧
  firstMatch ctx.userVotingConfig f.gt.Details = some f.d ∧
  ctx.userVotingConfig f.d.Address = some f.uvc ∧
  env.DecodeAddress f.d.Address = .ok f.addr ∧
  env.NewHashFromStr f.gt.TxID = .ok f.hash ∧
  (ctx.addedLowFeeTicketsMSA f.hash = none →
    env.MsgTxFromHex f.gt.Hex = some f.msgTx ∧
    env.NewHashFromStr f.gt.BlockHash = .ok f.blockHash ∧
    (resolveHeight env f.blockHash (afterReceive s ticket f.gt)).1 = some f.height ∧
    env.evaluateStakePoolTicket
        (resolveHeight env f.blockHash (afterReceive s ticket f.gt)).2.trace
        f.msgTx f.height f.addr = (f.valid, f.err))

/-- The events issued between state `s` and a later state `s1` (most recent
first): what `s1.trace` holds on top of `s.trace`. -/
def issuedBy (s s1 : PassState) : List Event :=
  s1.trace.take (s1.trace.length - s.trace.length)

/-- The per-ticket errors after which a ticket is left out of both mappings, for
the promise of `ticket` taken up in state `s`: the detail fetch fails; no detail
address is a key of the snapshot; every detail address that is a key fails to
decode; the transaction id fails to parse; or, for an unflagged ticket, the raw
transaction fails to parse, the block hash fails to parse, or the block hash is
not cached and every `GetBlockHeader` issued for it while the ticket is
processed fails (none of the events issued by the processing is a successful
lookup of it). -/
def HitsError (env : Env) (ctx : appContext) (s : PassState) (ticket : Hash) : Prop :=
  (∃ err, env.Receive s.trace s.counter ticket = .error err) ∨
  ∃ gt, env.Receive s.trace s.counter ticket = .ok gt ∧
    ((∀ d ∈ gt.Details, ctx.userVotingConfig d.Address = none) ∨
     (∀ d ∈ gt.Details, (ctx.userVotingConfig d.Address).isSome →
        ∃ err, env.DecodeAddress d.Address = .error err) ∨
     (∃ err, env.NewHashFromStr gt.TxID = .error err) ∨
     (∃ hash, env.NewHashFromStr gt.TxID = .ok hash ∧
        ctx.addedLowFeeTicketsMSA hash = none ∧
        (env.MsgTxFromHex gt.Hex = none ∨
         (∃ err, env.NewHashFromStr gt.BlockHash = .error err) ∨
         (∃ blockHash, env.NewHashFromStr gt.BlockHash = .ok blockHash ∧
            s.blockHashToHeightCache blockHash = none ∧
            ∀ gbh, Event.GetBlockHeader blockHash (.ok gbh) ∉
              issuedBy s (promiseBody env ctx ctx.userVotingConfig ticket s)))))

/-- The two sets of collaborators give the same answer to the same request,
whatever happened before and whatever the position of the promise; the answer
to `GetTickets` is left free. -/
def Env.SameAnswers (env env2 : Env) : Prop :=
  (∀ tr tr2 i j ticket, env.Receive tr i ticket = env2.Receive tr2 j ticket) ∧
  (∀ tr tr2 blockHash, env.GetBlockHeader tr blockHash = env2.GetBlockHeader tr2 blockHash) ∧
  (∀ tr tr2 msgTx height addr,
    env.evaluateStakePoolTicket tr msgTx height addr =
      env2.evaluateStakePoolTicket tr2 msgTx height addr) ∧
  env.DecodeAddress = env2.DecodeAddress ∧
  env.NewHashFromStr = env2.NewHashFromStr ∧
  env.MsgTxFromHex = env2.MsgTxFromHex

/-- The wallet, node and evaluator responses are fixed: each answer is a
function of the request alone. -/
def Env.FixedResponses (env : Env) : Prop := env.SameAnswers env

/-- Two states hold the same cache, the same mappings and the same fee count. -/
def SameData (s s2 : PassState) : Prop :=
  s.blockHashToHeightCache = s2.blockHashToHeightCache ∧
  s.ignoredLowFeeTickets = s2.ignoredLowFeeTickets ∧
  s.liveTickets = s2.liveTickets ∧
  s.normalFee = s2.normalFee

/-! ## Concrete passes -/

/-- Users of the pool: four purchasing addresses and their voting addresses. -/
def exUsers : GoMap String UserVotingConfig := fun a =>
  if a = "userA" then some { MultiSigAddress := "msaA" }
  else if a = "userB" then some { MultiSigAddress := "msaB" }
  else if a = "userC" then some { MultiSigAddress := "msaC" }
  else if a = "userX" then some { MultiSigAddress := "msaX" }
  else none

/-- A context in which the ticket with hash 1 is already flagged. -/
def exCtx : appContext :=
  { userVotingConfig := exUsers
    addedLowFeeTicketsMSA := fun h => if h = { val := 1 } then some "msaA" else none }

/-- The hash parser: five strings parse, every other string is rejected. -/
def exParseHash (t : String) : Except Error Hash :=
  if t = "A" then .ok { val := 1 }
  else if t = "B" then .ok { val := 2 }
  else if t = "C" then .ok { val := 3 }
  else if t = "blk1" then .ok { val := 101 }
  else if t = "blk2" then .ok { val := 102 }
  else .error (Error.external "bad hash")

/-- The address decoder: the address of user X does not decode. -/
def exDecode (a : String) : Except Error Address :=
  if a = "userX" then .error (Error.external "bad address") else .ok { enc := a }

/-- The evaluator: the fee of transaction B is valid (and a diagnostic error is
returned with it), every other fee is invalid. -/
def exEvaluate (msgTx : MsgTx) : Bool × Option Error :=
  if msgTx.raw = "hexB" then (true, some (Error.external "diagnostic")) else (false, none)

def exGtA : GetTransactionResult :=
  { TxID := "A", Hex := "hexA", BlockHash := "blk1",
    Details := [{ Address := "stranger" }, { Address := "userA" }] }

def exGtB : GetTransactionResult :=
  { TxID := "B", Hex := "hexB", BlockHash := "blk1", Details := [{ Address := "userB" }] }

def exGtC : GetTransactionResult :=
  { TxID := "C", Hex := "hexC", BlockHash := "blk2", Details := [{ Address := "userC" }] }

/-- Three tickets: A is flagged, the fee of B is valid, the fee of C is not.
The detail fetch of any other ticket fails. -/
def exEnv : Env :=
  { GetTickets := fun _ => .ok [{ val := 1 }, { val := 2 }, { val := 3 }]
    Receive := fun _ _ t =>
      if t = { val := 1 } then .ok exGtA
      else if t = { val := 2 } then .ok exGtB
      else if t = { val := 3 } then .ok exGtC
      else .error (Error.external "no such transaction")
    GetBlockHeader := fun _ _ => .ok { Height := 500 }
    evaluateStakePoolTicket := fun _ msgTx _ _ => exEvaluate msgTx
    DecodeAddress := exDecode
    NewHashFromStr := exParseHash
    MsgTxFromHex := fun x => some { raw := x } }

def exFactsA : TicketFacts :=
  { gt := exGtA, d := { Address := "userA" }, uvc := { MultiSigAddress := "msaA" },
    addr := { enc := "userA" }, hash := { val := 1 }, msgTx := { raw := "hexA" },
    blockHash := { val := 101 }, height := 500, valid := false, err := none }

def exFactsB : TicketFacts :=
  { gt := exGtB, d := { Address := "userB" }, uvc := { MultiSigAddress := "msaB" },
    addr := { enc := "userB" }, hash := { val := 2 }, msgTx := { raw := "hexB" },
    blockHash := { val := 101 }, height := 500, valid := true,
    err := some (Error.external "diagnostic") }

def exFactsC : TicketFacts :=
  { gt := exGtC, d := { Address := "userC" }, uvc := { MultiSigAddress := "msaC" },
    addr := { enc := "userC" }, hash := { val := 3 }, msgTx := { raw := "hexC" },
    blockHash := { val := 102 }, height := 500, valid := false, err := none }

def exFacts : Nat → TicketFacts
  | 0 => exFactsA
  | 1 => exFactsB
  | _ => exFactsC

/-- A transaction that carries the id of B and the fee of C. -/
def exGtSameId : GetTransactionResult :=
  { TxID := "B", Hex := "hexC", BlockHash := "blk2", Details := [{ Address := "userC" }] }

/-- Two listed tickets whose transactions carry the same `TxID`. -/
def exEnvSameTxID : Env :=
  { exEnv with
    GetTickets := fun _ => .ok [{ val := 2 }, { val := 3 }]
    Receive := fun _ _ t =>
      if t = { val := 2 } then .ok exGtB
      else if t = { val := 3 } then .ok exGtSameId
      else .error (Error.external "no such transaction") }

/-- A transaction whose first detail address belongs to user X (a key of the
snapshot that does not decode) and whose second belongs to user B. -/
def exGtTwoUsers : GetTransactionResult :=
  { TxID := "B", Hex := "hexB", BlockHash := "blk1",
    Details := [{ Address := "userX" }, { Address := "userB" }] }

/-- One listed ticket, with the transaction `exGtTwoUsers`. -/
def exEnvTwoUsers : Env :=
  { exEnv with
    GetTickets := fun _ => .ok [{ val := 2 }]
    Receive := fun _ _ _ => .ok exGtTwoUsers }

/-- A transaction with two detail addresses of known users, C then B. -/
def exGtTwoOutputs : GetTransactionResult :=
  { TxID := "B", Hex := "hexB", BlockHash := "blk1",
    Details := [{ Address := "userC" }, { Address := "userB" }] }

/-- An earlier `GetBlockHeader` was issued. -/
def exLookedUp : List Event → Bool
  | [] => false
  | Event.GetBlockHeader _ _ :: _ => true
  | _ :: tr => exLookedUp tr

/-- One listed ticket, with the transaction `exGtTwoOutputs`, and a node whose
first header lookup fails and whose later lookups succeed. -/
def exEnvRetry : Env :=
  { exEnv with
    GetTickets := fun _ => .ok [{ val := 2 }]
    Receive := fun _ _ _ => .ok exGtTwoOutputs
    GetBlockHeader := fun tr _ =>
      if exLookedUp tr then .ok { Height := 500 } else .error (Error.external "busy") }

/-- A transaction that carries the id and the fee of B and the address of user C. -/
def exGtSameIdValid : GetTransactionResult :=
  { TxID := "B", Hex := "hexB", BlockHash := "blk1", Details := [{ Address := "userC" }] }

/-- Two distinct listed tickets, 2 and 3, whose transactions carry the same
`TxID`; every step succeeds for both and both fees are valid. -/
def exEnvSameIdValid : Env :=
  { exEnv with
    GetTickets := fun _ => .ok [{ val := 2 }, { val := 3 }]
    Receive := fun _ _ t =>
      if t = { val := 2 } then .ok exGtB
      else if t = { val := 3 } then .ok exGtSameIdValid
      else .error (Error.external "no such transaction") }

/-- What the pass of `exEnvSameIdValid` obtains for the listed ticket 3. -/
def exFactsSameIdValid : TicketFacts :=
  { gt := exGtSameIdValid, d := { Address := "userC" }, uvc := { MultiSigAddress := "msaC" },
    addr := { enc := "userC" }, hash := { val := 2 }, msgTx := { raw := "hexB" },
    blockHash := { val := 101 }, height := 500, valid := true,
    err := some (Error.external "diagnostic") }

/-- The number of `GetBlockHeader` calls issued so far. -/
def exLookupCount : List Event → Nat
  | [] => 0
  | Event.GetBlockHeader _ _ :: tr => exLookupCount tr + 1
  | _ :: tr => exLookupCount tr

/-- One listed ticket, with the transaction `exGtTwoOutputs`, and a node whose
first two header lookups fail and whose later lookups succeed. -/
def exEnvTwoFail : Env :=
  { exEnv with
    GetTickets := fun _ => .ok [{ val := 2 }]
    Receive := fun _ _ _ => .ok exGtTwoOutputs
    GetBlockHeader := fun tr _ =>
      if 2 ≤ exLookupCount tr then .ok { Height := 500 } else .error (Error.external "busy") }

/-- The states in which a pass over `tickets` can take up a promise or start an
iteration of the loop over a detail list: the state at the start of the loop
over the promises, the state after a `Receive`, and the state after an
iteration of the loop over a detail list.  Every resolve of a block hash is
made at the start of such an iteration. -/
inductive PassReaches (env : Env) (ctx : appContext) (tickets : List Hash) :
    PassState → Prop where
  | start : PassReaches env ctx tickets (startState env tickets)
  | receive (s : PassState) (ticket : Hash) :
      PassReaches env ctx tickets s →
      PassReaches env ctx tickets
        { s with
          counter := s.counter + 1
          trace :=
            Event.Receive s.counter ticket (env.Receive s.trace s.counter ticket) :: s.trace }
  | iteration (s : PassState) (gt : GetTransactionResult) (d : TxDetail) :
      PassReaches env ctx tickets s →
      PassReaches env ctx tickets (detailBody env ctx ctx.userVotingConfig gt d s).2

/-! ## Basic facts -/

theorem GoMap.set_self {K V : Type} [DecidableEq K] (m : GoMap K V) (k : K) (v : V) :
    m.set k v k = some v := by
  simp [GoMap.set]

theorem GoMap.set_other {K V : Type} [DecidableEq K] (m : GoMap K V) (k k' : K) (v : V)
    (h : k' ≠ k) : m.set k v k' = m k' := by
  simp [GoMap.set, h]

theorem Event.storedFor_eq_none_iff (e : Event) (blockHash : Hash) :
    e.storedFor blockHash = none ↔ ¬ ∃ gbh, e = Event.GetBlockHeader blockHash (.ok gbh) := by
  cases e with
  | GetBlockHeader h res =>
    cases res with
    | error err => simp [Event.storedFor]
    | ok gbh =>
      by_cases hh : h = blockHash
      · simp [Event.storedFor, hh]
      · simp [Event.storedFor, hh]
  | GetTickets res => simp [Event.storedFor]
  | GetTransactionAsync t => simp [Event.storedFor]
  | Receive i t res => simp [Event.storedFor]
  | evaluateStakePoolTicket tx ht a res => simp [Event.storedFor]

theorem storedHeight_eq_none_iff (tr : List Event) (blockHash : Hash) :
    storedHeight tr blockHash = none ↔ ¬ SucceededBefore tr blockHash := by
  induction tr with
  | nil => simp [storedHeight, SucceededBefore]
  | cons e tr ih =>
    unfold SucceededBefore at ih ⊢
    rw [storedHeight]
    cases hs : storedHeight tr blockHash with
    | some height =>
      have h1 : ¬ (storedHeight tr blockHash = none) := by simp [hs]
      have h2 := (not_congr ih).mp h1
      simp only [not_not] at h2
      obtain ⟨gbh, hg⟩ := h2
      simp only [reduceCtorEq, false_iff, not_not]
      exact ⟨gbh, List.mem_cons_of_mem _ hg⟩
    | none =>
      have h2 := ih.mp hs
      simp only [Event.storedFor_eq_none_iff]
      constructor
      · rintro h3 ⟨gbh, hg⟩
        rcases List.mem_cons.mp hg with heq | hmem
        · exact h3 ⟨gbh, heq.symm⟩
        · exact h2 ⟨gbh, hmem⟩
      · rintro h3 ⟨gbh, hg⟩
        exact h3 ⟨gbh, by rw [hg]; exact List.mem_cons_self _ _⟩

/-! ## Version gate and session establishment -/

/-- C9: the compatibility predicate holds exactly when the advertised major
version equals the required one and the advertised minor version is at least
the required one; the patch fields play no part.  With 5.0.0 required, 5.0.0
and 5.1.2 are compatible and 6.0.0 is not. -/
theorem semverCompatible_iff_major_eq_minor_ge :
    (∀ Rmaj Rmin Rpatch Amaj Amin Apatch : Nat,
      semverCompatible { major := Rmaj, minor := Rmin, patch := Rpatch }
          { major := Amaj, minor := Amin, patch := Apatch } = true ↔
        (Amaj = Rmaj ∧ Amin ≥ Rmin)) ∧
    semverCompatible requiredChainServerAPI { major := 5, minor := 0, patch := 0 } = true ∧
    semverCompatible requiredChainServerAPI { major := 5, minor := 1, patch := 2 } = true ∧
    semverCompatible requiredChainServerAPI { major := 6, minor := 0, patch := 0 } = false := by
  refine ⟨?_, by decide, by decide, by decide⟩
  intro Rmaj Rmin Rpatch Amaj Amin Apatch
  simp [semverCompatible]

/-- C8: when the certificate read, the client creation and the `Version` query
succeed and the advertised version is not compatible, `connectNodeRPC` returns
no client and an error, `connectWalletRPC` returns the created client and no
error, and both return the advertised version. -/
theorem connect_incompatible_node_aborts_wallet_warns :
    (∀ (env : SessionEnv) (ctx : appContext) (cfg : config) (cert : List Nat) (client : Client)
        (ver : GoMap String VersionResult) (adv : semver),
      env.ReadFile cfg.DcrdCert = .ok cert →
      env.New { Host := cfg.DcrdHost, Endpoint := "ws", User := cfg.DcrdUser,
                Pass := cfg.DcrdPassword, Certificates := cert }
          (env.getNodeNtfnHandlers ctx
            { Host := cfg.DcrdHost, Endpoint := "ws", User := cfg.DcrdUser,
              Pass := cfg.DcrdPassword, Certificates := cert }) = .ok client →
      env.Version client = .ok ver →
      adv = { major := (versionOf ver "dcrdjsonrpcapi").Major,
              minor := (versionOf ver "dcrdjsonrpcapi").Minor,
              patch := (versionOf ver "dcrdjsonrpcapi").Patch } →
      semverCompatible requiredChainServerAPI adv = false →
      ∃ err, connectNodeRPC env ctx cfg = (none, adv, some err)) ∧
    (∀ (env : SessionEnv) (cfg : config) (cert : List Nat) (client : Client)
        (ver : GoMap String VersionResult) (adv : semver),
      env.ReadFile cfg.WalletCert = .ok cert →
      env.New { Host := cfg.WalletHost, Endpoint := "ws", User := cfg.WalletUser,
                Pass := cfg.WalletPassword, Certificates := cert }
          (env.getWalletNtfnHandlers cfg) = .ok client →
      env.Version client = .ok ver →
      adv = { major := (versionOf ver "dcrwalletjsonrpcapi").Major,
              minor := (versionOf ver "dcrwalletjsonrpcapi").Minor,
              patch := (versionOf ver "dcrwalletjsonrpcapi").Patch } →
      semverCompatible requiredWalletAPI adv = false →
      connectWalletRPC env cfg = (some client, adv, none)) := by
  constructor
  · intro env ctx cfg cert client ver adv hread hnew hver hadv hcompat
    subst hadv
    simp only [connectNodeRPC, hread, hnew, hver, hcompat]
    exact ⟨_, rfl⟩
  · intro env cfg cert client ver adv hread hnew hver hadv hcompat
    subst hadv
    simp only [connectWalletRPC, hread, hnew, hver, hcompat]
    rfl

/-- Witness of C8: both servers advertise 6.1.0 while 5.0.0 is required. -/
theorem connect_incompatible_node_aborts_wallet_warns_witness :
    (∃ err, connectNodeRPC exSessionEnv exCtxEmpty exConfig =
      (none, { major := 6, minor := 1, patch := 0 }, some err)) ∧
    connectWalletRPC exSessionEnv exConfig =
      (some { id := 1 }, { major := 6, minor := 1, patch := 0 }, none) :=
  ⟨connect_incompatible_node_aborts_wallet_warns.1 exSessionEnv exCtxEmpty exConfig [1, 2]
      { id := 0 } (fun _ => some { Major := 6, Minor := 1, Patch := 0 })
      { major := 6, minor := 1, patch := 0 } rfl rfl rfl rfl (by decide),
   connect_incompatible_node_aborts_wallet_warns.2 exSessionEnv exConfig [1, 2]
      { id := 1 } (fun _ => some { Major := 6, Minor := 1, Patch := 0 })
      { major := 6, minor := 1, patch := 0 } rfl rfl rfl rfl (by decide)⟩

/-! ## The reconciliation pass -/

/-- C6: when `GetTickets` fails, `walletGetTickets` returns two empty mappings
and the only remote call of the pass is that `GetTickets`: no detail fetch and
no block-header lookup is issued. -/
theorem walletGetTickets_list_failure (env : Env) (ctx : appContext) (err : Error)
    (hlist : env.GetTickets [] = .error err) :
    walletGetTickets env ctx = (GoMap.empty, GoMap.empty) ∧
    (walletGetTicketsRun env ctx).trace = [Event.GetTickets (.error err)] := by
  simp [walletGetTickets, walletGetTicketsRun, hlist]

/-- Witness of C6: a wallet whose `GetTickets` fails. -/
theorem walletGetTickets_list_failure_witness :
    walletGetTickets exEnvListFails exCtxEmpty = (GoMap.empty, GoMap.empty) ∧
    (walletGetTicketsRun exEnvListFails exCtxEmpty).trace =
      [Event.GetTickets (.error (Error.external "wallet down"))] :=
  walletGetTickets_list_failure exEnvListFails exCtxEmpty (Error.external "wallet down") rfl

/-! ## The purchase-height resolution -/

theorem storedHeight_cons (e : Event) (tr : List Event) (blockHash : Hash)
    (he : e.storedFor blockHash = none) :
    storedHeight (e :: tr) blockHash = storedHeight tr blockHash := by
  rw [storedHeight]
  cases hs : storedHeight tr blockHash with
  | some height => rfl
  | none => simpa using he

theorem resolveHeight_hit (env : Env) (blockHash : Hash) (s : PassState) (height : Int)
    (h : s.blockHashToHeightCache blockHash = some height) :
    resolveHeight env blockHash s = (some height, s) := by
  simp [resolveHeight, h]

theorem resolveHeight_miss_error (env : Env) (blockHash : Hash) (s : PassState) (err : Error)
    (h : s.blockHashToHeightCache blockHash = none)
    (he : env.GetBlockHeader s.trace blockHash = .error err) :
    resolveHeight env blockHash s =
      (none, { s with trace := Event.GetBlockHeader blockHash (.error err) :: s.trace }) := by
  simp [resolveHeight, h, he]

theorem resolveHeight_miss_ok (env : Env) (blockHash : Hash) (s : PassState) (gbh : BlockHeader)
    (h : s.blockHashToHeightCache blockHash = none)
    (he : env.GetBlockHeader s.trace blockHash = .ok gbh) :
    resolveHeight env blockHash s =
      (some (toInt32 gbh.Height),
        { s with
          blockHashToHeightCache := s.blockHashToHeightCache.set blockHash (toInt32 gbh.Height)
          trace := Event.GetBlockHeader blockHash (.ok gbh) :: s.trace }) := by
  simp [resolveHeight, h, he]

/-- The three ways a resolve can end. -/
theorem resolveHeight_cases (env : Env) (blockHash : Hash) (s : PassState) :
    (∃ height, s.blockHashToHeightCache blockHash = some height ∧
      resolveHeight env blockHash s = (some height, s)) ∨
    (∃ err, s.blockHashToHeightCache blockHash = none ∧
      env.GetBlockHeader s.trace blockHash = .error err ∧
      resolveHeight env blockHash s =
        (none, { s with trace := Event.GetBlockHeader blockHash (.error err) :: s.trace })) ∨
    (∃ gbh, s.blockHashToHeightCache blockHash = none ∧
      env.GetBlockHeader s.trace blockHash = .ok gbh ∧
      resolveHeight env blockHash s =
        (some (toInt32 gbh.Height),
          { s with
            blockHashToHeightCache :=
              s.blockHashToHeightCache.set blockHash (toInt32 gbh.Height)
            trace := Event.GetBlockHeader blockHash (.ok gbh) :: s.trace })) := by
  cases hc : s.blockHashToHeightCache blockHash with
  | some height => exact Or.inl ⟨height, rfl, resolveHeight_hit env blockHash s height hc⟩
  | none =>
    cases he : env.GetBlockHeader s.trace blockHash with
    | error err =>
      exact Or.inr (Or.inl ⟨err, rfl, rfl, resolveHeight_miss_error env blockHash s err hc he⟩)
    | ok gbh =>
      exact Or.inr (Or.inr ⟨gbh, rfl, rfl, resolveHeight_miss_ok env blockHash s gbh hc he⟩)

theorem resolveHeight_cacheMatches (env : Env) (blockHash : Hash) (s : PassState)
    (hinv : CacheMatchesLookups s) : CacheMatchesLookups (resolveHeight env blockHash s).2 := by
  rcases resolveHeight_cases env blockHash s with ⟨height, _, hr⟩ | ⟨err, _, _, hr⟩ |
    ⟨gbh, hc, _, hr⟩
  · rw [hr]; exact hinv
  · rw [hr]
    intro b
    show s.blockHashToHeightCache b = storedHeight (_ :: s.trace) b
    rw [storedHeight_cons _ _ _ (by simp [Event.storedFor])]
    exact hinv b
  · rw [hr]
    intro b
    show (s.blockHashToHeightCache.set blockHash (toInt32 gbh.Height)) b =
      storedHeight (_ :: s.trace) b
    by_cases hb : b = blockHash
    · subst hb
      rw [GoMap.set_self, storedHeight, ← hinv b, hc]
      simp [Event.storedFor]
    · rw [GoMap.set_other _ _ _ _ hb, storedHeight_cons _ _ _ (by
        simp only [Event.storedFor]
        rw [if_neg (fun h => hb h.symm)])]
      exact hinv b

/-- What a resolve does in a state whose cache holds exactly what the successful
lookups stored. -/
theorem resolveHeight_of_cacheMatches (env : Env) (s : PassState)
    (blockHash : Hash) (hinv : CacheMatchesLookups s) :
    (IssuesLookup env blockHash s ↔ ¬ SucceededBefore s.trace blockHash) ∧
    (SucceededBefore s.trace blockHash →
      (storedHeight s.trace blockHash).isSome ∧
      resolveHeight env blockHash s = (storedHeight s.trace blockHash, s)) ∧
    (∀ err, ¬ SucceededBefore s.trace blockHash →
      env.GetBlockHeader s.trace blockHash = .error err →
      (resolveHeight env blockHash s).1 = none ∧
      (resolveHeight env blockHash s).2.blockHashToHeightCache = s.blockHashToHeightCache ∧
      IssuesLookup env blockHash (resolveHeight env blockHash s).2) ∧
    (∀ gbh, ¬ SucceededBefore s.trace blockHash →
      env.GetBlockHeader s.trace blockHash = .ok gbh →
      (resolveHeight env blockHash s).1 = some (toInt32 gbh.Height) ∧
      ¬ IssuesLookup env blockHash (resolveHeight env blockHash s).2 ∧
      resolveHeight env blockHash (resolveHeight env blockHash s).2 =
        (some (toInt32 gbh.Height), (resolveHeight env blockHash s).2)) ∧
    CacheMatchesLookups (resolveHeight env blockHash s).2 := by
  have hnone : s.blockHashToHeightCache blockHash = none ↔
      ¬ SucceededBefore s.trace blockHash := by
    rw [hinv blockHash]; exact storedHeight_eq_none_iff _ _
  refine ⟨?_, ?_, ?_, ?_, resolveHeight_cacheMatches env blockHash s hinv⟩
  · constructor
    · rintro ⟨res, hres⟩ hsucc
      cases hc : s.blockHashToHeightCache blockHash with
      | none => exact (hnone.mp hc) hsucc
      | some height =>
        rw [resolveHeight_hit env blockHash s height hc] at hres
        exact List.cons_ne_self _ _ hres.symm
    · intro hns
      have hc := hnone.mpr hns
      rcases resolveHeight_cases env blockHash s with ⟨height, hc2, _⟩ | ⟨err, _, _, hr⟩ |
        ⟨gbh, _, _, hr⟩
      · rw [hc] at hc2; cases hc2
      · exact ⟨_, by rw [hr]⟩
      · exact ⟨_, by rw [hr]⟩
  · intro hsucc
    cases hc : s.blockHashToHeightCache blockHash with
    | none => exact absurd hsucc (hnone.mp hc)
    | some height =>
      rw [← hinv blockHash, hc]
      exact ⟨rfl, resolveHeight_hit env blockHash s height hc⟩
  · intro err hns he
    have hc := hnone.mpr hns
    rw [resolveHeight_miss_error env blockHash s err hc he]
    refine ⟨rfl, rfl, ?_⟩
    have hc1 : ({ s with trace := Event.GetBlockHeader blockHash (.error err) :: s.trace } :
        PassState).blockHashToHeightCache blockHash = none := hc
    rcases resolveHeight_cases env blockHash
        { s with trace := Event.GetBlockHeader blockHash (.error err) :: s.trace } with
      ⟨height, hc2, _⟩ | ⟨err2, _, _, hr⟩ | ⟨gbh2, _, _, hr⟩
    · rw [hc1] at hc2; cases hc2
    · exact ⟨_, by rw [hr]⟩
    · exact ⟨_, by rw [hr]⟩
  · intro gbh hns he
    have hc := hnone.mpr hns
    rw [resolveHeight_miss_ok env blockHash s gbh hc he]
    have hhit := resolveHeight_hit env blockHash
      { s with
        blockHashToHeightCache := s.blockHashToHeightCache.set blockHash (toInt32 gbh.Height)
        trace := Event.GetBlockHeader blockHash (.ok gbh) :: s.trace }
      (toInt32 gbh.Height) (GoMap.set_self _ _ _)
    refine ⟨rfl, ?_, hhit⟩
    rintro ⟨res, hres⟩
    rw [hhit] at hres
    exact List.cons_ne_self _ _ hres.symm

/-! ## One iteration of the loop over the detail list -/

theorem feeStep_cache (env : Env) (hash : Hash) (msa : String) (msgTx : MsgTx) (height : Int)
    (addr : Address) (s : PassState) :
    (feeStep env hash msa msgTx height addr s).blockHashToHeightCache =
      s.blockHashToHeightCache := by
  by_cases h : (env.evaluateStakePoolTicket s.trace msgTx height addr).1 = true <;>
    simp [feeStep, h]

theorem feeStep_counter (env : Env) (hash : Hash) (msa : String) (msgTx : MsgTx) (height : Int)
    (addr : Address) (s : PassState) :
    (feeStep env hash msa msgTx height addr s).counter = s.counter := by
  by_cases h : (env.evaluateStakePoolTicket s.trace msgTx height addr).1 = true <;>
    simp [feeStep, h]

theorem feeStep_trace (env : Env) (hash : Hash) (msa : String) (msgTx : MsgTx) (height : Int)
    (addr : Address) (s : PassState) :
    (feeStep env hash msa msgTx height addr s).trace =
      Event.evaluateStakePoolTicket msgTx height addr
        (env.evaluateStakePoolTicket s.trace msgTx height addr) :: s.trace := by
  by_cases h : (env.evaluateStakePoolTicket s.trace msgTx height addr).1 = true <;>
    simp [feeStep, h]

theorem feeStep_live (env : Env) (hash : Hash) (msa : String) (msgTx : MsgTx) (height : Int)
    (addr : Address) (s : PassState) :
    (feeStep env hash msa msgTx height addr s).liveTickets =
      if (env.evaluateStakePoolTicket s.trace msgTx height addr).1 = true
      then s.liveTickets.set hash msa else s.liveTickets := by
  by_cases h : (env.evaluateStakePoolTicket s.trace msgTx height addr).1 = true <;>
    simp [feeStep, h]

theorem feeStep_ignored (env : Env) (hash : Hash) (msa : String) (msgTx : MsgTx) (height : Int)
    (addr : Address) (s : PassState) :
    (feeStep env hash msa msgTx height addr s).ignoredLowFeeTickets =
      if (env.evaluateStakePoolTicket s.trace msgTx height addr).1 = true
      then s.ignoredLowFeeTickets else s.ignoredLowFeeTickets.set hash msa := by
  by_cases h : (env.evaluateStakePoolTicket s.trace msgTx height addr).1 = true <;>
    simp [feeStep, h]

/-- The four ways an iteration can end: nothing happened; a header lookup
failed; the ticket was flagged and went to the live mapping; the fee check ran. -/
theorem detailBody_cases (env : Env) (ctx : appContext)
    (cfg : GoMap String UserVotingConfig) (gt : GetTransactionResult) (d : TxDetail)
    (s : PassState) :
    detailBody env ctx cfg gt d s = (.cont, s) ∨
    (∃ uvc addr hash msgTx blockHash,
      cfg d.Address = some uvc ∧ env.DecodeAddress d.Address = .ok addr ∧
      env.NewHashFromStr gt.TxID = .ok hash ∧ ctx.addedLowFeeTicketsMSA hash = none ∧
      env.MsgTxFromHex gt.Hex = some msgTx ∧ env.NewHashFromStr gt.BlockHash = .ok blockHash ∧
      (resolveHeight env blockHash s).1 = none ∧
      detailBody env ctx cfg gt d s = (.cont, (resolveHeight env blockHash s).2)) ∨
    (∃ uvc addr hash,
      cfg d.Address = some uvc ∧ env.DecodeAddress d.Address = .ok addr ∧
      env.NewHashFromStr gt.TxID = .ok hash ∧ (ctx.addedLowFeeTicketsMSA hash).isSome ∧
      detailBody env ctx cfg gt d s =
        (.brk, { s with liveTickets := s.liveTickets.set hash uvc.MultiSigAddress })) ∨
    (∃ uvc addr hash msgTx blockHash height,
      cfg d.Address = some uvc ∧ env.DecodeAddress d.Address = .ok addr ∧
      env.NewHashFromStr gt.TxID = .ok hash ∧ ctx.addedLowFeeTicketsMSA hash = none ∧
      env.MsgTxFromHex gt.Hex = some msgTx ∧ env.NewHashFromStr gt.BlockHash = .ok blockHash ∧
      (resolveHeight env blockHash s).1 = some height ∧
      detailBody env ctx cfg gt d s =
        (.brk, feeStep env hash uvc.MultiSigAddress msgTx height addr
          (resolveHeight env blockHash s).2)) := by
  cases h1 : cfg d.Address with
  | none => left; simp [detailBody, h1]
  | some uvc =>
    cases h2 : env.DecodeAddress d.Address with
    | error e => left; simp [detailBody, h1, h2]
    | ok addr =>
      cases h3 : env.NewHashFromStr gt.TxID with
      | error e => left; simp [detailBody, h1, h2, h3]
      | ok hash =>
        cases h4 : ctx.addedLowFeeTicketsMSA hash with
        | some m =>
          right; right; left
          exact ⟨uvc, addr, hash, rfl, rfl, rfl, by simp [h4], by simp [detailBody, h1, h2, h3, h4]⟩
        | none =>
          cases h5 : env.MsgTxFromHex gt.Hex with
          | none => left; simp [detailBody, h1, h2, h3, h4, h5]
          | some msgTx =>
            cases h6 : env.NewHashFromStr gt.BlockHash with
            | error e => left; simp [detailBody, h1, h2, h3, h4, h5, h6]
            | ok blockHash =>
              cases h7 : resolveHeight env blockHash s with
              | mk o s1 =>
                cases o with
                | none =>
                  right; left
                  exact ⟨uvc, addr, hash, msgTx, blockHash, rfl, rfl, rfl, h4, rfl, rfl,
                    by rw [h7], by simp [detailBody, h1, h2, h3, h4, h5, h6, h7]⟩
                | some height =>
                  right; right; right
                  exact ⟨uvc, addr, hash, msgTx, blockHash, height, rfl, rfl, rfl, h4, rfl, rfl,
                    by rw [h7], by simp [detailBody, h1, h2, h3, h4, h5, h6, h7]⟩

theorem receivedHashes_cons (env : Env) (e : Event) (tr : List Event)
    (he : e.receivedHash env = none) :
    receivedHashes env (e :: tr) = receivedHashes env tr := by
  simp [receivedHashes, List.filterMap_cons, he]

theorem resolveHeight_frame (env : Env) (blockHash : Hash) (s : PassState) :
    (resolveHeight env blockHash s).2.counter = s.counter ∧
    (resolveHeight env blockHash s).2.liveTickets = s.liveTickets ∧
    (resolveHeight env blockHash s).2.ignoredLowFeeTickets = s.ignoredLowFeeTickets ∧
    (resolveHeight env blockHash s).2.normalFee = s.normalFee ∧
    receivedHashes env (resolveHeight env blockHash s).2.trace = receivedHashes env s.trace := by
  rcases resolveHeight_cases env blockHash s with ⟨height, _, hr⟩ | ⟨err, _, _, hr⟩ |
    ⟨gbh, _, _, hr⟩
  · rw [hr]; exact ⟨rfl, rfl, rfl, rfl, rfl⟩
  · rw [hr]; exact ⟨rfl, rfl, rfl, rfl, receivedHashes_cons env _ _ rfl⟩
  · rw [hr]; exact ⟨rfl, rfl, rfl, rfl, receivedHashes_cons env _ _ rfl⟩

theorem detailBody_cacheMatches (env : Env) (ctx : appContext)
    (cfg : GoMap String UserVotingConfig) (gt : GetTransactionResult) (d : TxDetail)
    (s : PassState) (hinv : CacheMatchesLookups s) :
    CacheMatchesLookups (detailBody env ctx cfg gt d s).2 := by
  rcases detailBody_cases env ctx cfg gt d s with hr |
    ⟨uvc, addr, hash, msgTx, blockHash, _, _, _, _, _, _, _, hr⟩ |
    ⟨uvc, addr, hash, _, _, _, _, hr⟩ |
    ⟨uvc, addr, hash, msgTx, blockHash, height, _, _, _, _, _, _, _, hr⟩
  · rw [hr]; exact hinv
  · rw [hr]; exact resolveHeight_cacheMatches env blockHash s hinv
  · rw [hr]; intro b; exact hinv b
  · rw [hr]
    have h1 := resolveHeight_cacheMatches env blockHash s hinv
    intro b
    show (feeStep env hash uvc.MultiSigAddress msgTx height addr
      (resolveHeight env blockHash s).2).blockHashToHeightCache b = storedHeight
        (feeStep env hash uvc.MultiSigAddress msgTx height addr
          (resolveHeight env blockHash s).2).trace b
    rw [feeStep_cache, feeStep_trace, storedHeight_cons _ _ _ (by rfl)]
    exact h1 b

theorem detailBody_cont_maps (env : Env) (ctx : appContext)
    (cfg : GoMap String UserVotingConfig) (gt : GetTransactionResult) (d : TxDetail)
    (s : PassState) (hc : (detailBody env ctx cfg gt d s).1 = .cont) :
    (detailBody env ctx cfg gt d s).2.counter = s.counter ∧
    receivedHashes env (detailBody env ctx cfg gt d s).2.trace = receivedHashes env s.trace ∧
    (detailBody env ctx cfg gt d s).2.liveTickets = s.liveTickets ∧
    (detailBody env ctx cfg gt d s).2.ignoredLowFeeTickets = s.ignoredLowFeeTickets := by
  rcases detailBody_cases env ctx cfg gt d s with hr |
    ⟨uvc, addr, hash, msgTx, blockHash, _, _, _, _, _, _, _, hr⟩ |
    ⟨uvc, addr, hash, _, _, _, _, hr⟩ |
    ⟨uvc, addr, hash, msgTx, blockHash, height, _, _, _, _, _, _, _, hr⟩
  · rw [hr]; exact ⟨rfl, rfl, rfl, rfl⟩
  · rw [hr]
    obtain ⟨h1, h2, h3, _, h5⟩ := resolveHeight_frame env blockHash s
    exact ⟨h1, h5, h2, h3⟩
  · rw [hr] at hc; cases hc
  · rw [hr] at hc; cases hc

theorem detailBody_effect (env : Env) (ctx : appContext)
    (cfg : GoMap String UserVotingConfig) (gt : GetTransactionResult) (d : TxDetail)
    (s : PassState) : TicketEffect env ctx gt s (detailBody env ctx cfg gt d s).2 := by
  rcases detailBody_cases env ctx cfg gt d s with hr |
    ⟨uvc, addr, hash, msgTx, blockHash, _, _, _, _, _, _, _, hr⟩ |
    ⟨uvc, addr, hash, _, _, hh, _, hr⟩ |
    ⟨uvc, addr, hash, msgTx, blockHash, height, _, _, hh, hflag, _, _, _, hr⟩
  · rw [hr]; exact ⟨rfl, rfl, Or.inl ⟨rfl, rfl⟩⟩
  · rw [hr]
    obtain ⟨h1, h2, h3, _, h5⟩ := resolveHeight_frame env blockHash s
    exact ⟨h1, h5, Or.inl ⟨h2, h3⟩⟩
  · rw [hr]
    exact ⟨rfl, rfl, Or.inr ⟨hash, uvc.MultiSigAddress, hh, Or.inl ⟨rfl, rfl⟩⟩⟩
  · rw [hr]
    obtain ⟨h1, h2, h3, _, h5⟩ := resolveHeight_frame env blockHash s
    refine ⟨?_, ?_, Or.inr ⟨hash, uvc.MultiSigAddress, hh, ?_⟩⟩
    · show (feeStep env hash uvc.MultiSigAddress msgTx height addr _).counter = s.counter
      rw [feeStep_counter, h1]
    · show receivedHashes env (feeStep env hash uvc.MultiSigAddress msgTx height addr _).trace =
        receivedHashes env s.trace
      rw [feeStep_trace, receivedHashes_cons env _ _ (by rfl), h5]
    · show ((feeStep env hash uvc.MultiSigAddress msgTx height addr _).liveTickets = _ ∧
          (feeStep env hash uvc.MultiSigAddress msgTx height addr _).ignoredLowFeeTickets = _) ∨
        (_ ∧ (feeStep env hash uvc.MultiSigAddress msgTx height addr _).ignoredLowFeeTickets = _ ∧
          (feeStep env hash uvc.MultiSigAddress msgTx height addr _).liveTickets = _)
      rw [feeStep_live, feeStep_ignored, h2, h3]
      by_cases hv : (env.evaluateStakePoolTicket (resolveHeight env blockHash s).2.trace msgTx
          height addr).1 = true
      · rw [if_pos hv, if_pos hv]; exact Or.inl ⟨rfl, rfl⟩
      · rw [if_neg hv, if_neg hv]; exact Or.inr ⟨hflag, rfl, rfl⟩

theorem TicketEffect.of_same (env : Env) (ctx : appContext) (gt : GetTransactionResult)
    (s s1 s2 : PassState) (hc : s1.counter = s.counter)
    (hr : receivedHashes env s1.trace = receivedHashes env s.trace)
    (hl : s1.liveTickets = s.liveTickets)
    (hi : s1.ignoredLowFeeTickets = s.ignoredLowFeeTickets)
    (h : TicketEffect env ctx gt s1 s2) : TicketEffect env ctx gt s s2 := by
  unfold TicketEffect at h ⊢
  rw [hc, hr, hl, hi] at h
  exact h

theorem detailsLoop_effect (env : Env) (ctx : appContext)
    (cfg : GoMap String UserVotingConfig) (gt : GetTransactionResult) :
    ∀ (ds : List TxDetail) (s : PassState),
      TicketEffect env ctx gt s (detailsLoop env ctx cfg gt ds s) := by
  intro ds
  induction ds with
  | nil => intro s; exact ⟨rfl, rfl, Or.inl ⟨rfl, rfl⟩⟩
  | cons d rest ih =>
    intro s
    have he := detailBody_effect env ctx cfg gt d s
    have hc := detailBody_cont_maps env ctx cfg gt d s
    rw [detailsLoop]
    cases hb : detailBody env ctx cfg gt d s with
    | mk ctl s1 =>
      rw [hb] at he hc
      cases ctl with
      | brk => exact he
      | cont =>
        obtain ⟨h1, h2, h3, h4⟩ := hc rfl
        exact TicketEffect.of_same env ctx gt s s1 _ h1 h2 h3 h4 (ih s1)

theorem detailsLoop_cacheMatches (env : Env) (ctx : appContext)
    (cfg : GoMap String UserVotingConfig) (gt : GetTransactionResult) :
    ∀ (ds : List TxDetail) (s : PassState), CacheMatchesLookups s →
      CacheMatchesLookups (detailsLoop env ctx cfg gt ds s) := by
  intro ds
  induction ds with
  | nil => intro s hs; exact hs
  | cons d rest ih =>
    intro s hs
    have h1 := detailBody_cacheMatches env ctx cfg gt d s hs
    rw [detailsLoop]
    cases hb : detailBody env ctx cfg gt d s with
    | mk ctl s1 =>
      rw [hb] at h1
      cases ctl with
      | brk => exact h1
      | cont => exact ih s1 h1

/-! ## One promise, and the loop over the promises -/

theorem promiseBody_error (env : Env) (ctx : appContext)
    (cfg : GoMap String UserVotingConfig) (ticket : Hash) (s : PassState) (err : Error)
    (he : env.Receive s.trace s.counter ticket = .error err) :
    promiseBody env ctx cfg ticket s =
      { s with
        counter := s.counter + 1
        trace := Event.Receive s.counter ticket (.error err) :: s.trace } := by
  simp [promiseBody, he]

theorem promiseBody_ok (env : Env) (ctx : appContext)
    (cfg : GoMap String UserVotingConfig) (ticket : Hash) (s : PassState)
    (gt : GetTransactionResult) (he : env.Receive s.trace s.counter ticket = .ok gt) :
    promiseBody env ctx cfg ticket s =
      detailsLoop env ctx cfg gt gt.Details
        { s with
          counter := s.counter + 1
          trace := Event.Receive s.counter ticket (.ok gt) :: s.trace } := by
  simp [promiseBody, he]

theorem promiseBody_effect (env : Env) (ctx : appContext)
    (cfg : GoMap String UserVotingConfig) (ticket : Hash) (s : PassState) :
    PromiseEffect env ctx s (promiseBody env ctx cfg ticket s) := by
  cases he : env.Receive s.trace s.counter ticket with
  | error err =>
    rw [promiseBody_error env ctx cfg ticket s err he]
    exact ⟨rfl, [], receivedHashes_cons env _ _ (by rfl), Or.inl ⟨rfl, rfl⟩⟩
  | ok gt =>
    rw [promiseBody_ok env ctx cfg ticket s gt he]
    obtain ⟨h1, h2, h3⟩ := detailsLoop_effect env ctx cfg gt gt.Details
      { s with
        counter := s.counter + 1
        trace := Event.Receive s.counter ticket (.ok gt) :: s.trace }
    refine ⟨h1, ?_⟩
    cases hp : env.NewHashFromStr gt.TxID with
    | error e =>
      refine ⟨[], ?_, Or.inl ?_⟩
      · rw [h2]
        exact receivedHashes_cons env _ _ (by simp [Event.receivedHash, hp])
      · rcases h3 with h3 | ⟨hash, msa, hh, _⟩
        · exact h3
        · rw [hp] at hh; cases hh
    | ok hash =>
      refine ⟨[hash], ?_, ?_⟩
      · rw [h2]
        simp [receivedHashes, List.filterMap_cons, Event.receivedHash, hp]
      · rcases h3 with h3 | ⟨hash2, msa, hh, h4⟩
        · exact Or.inl h3
        · rw [hp] at hh
          cases hh
          exact Or.inr ⟨hash, msa, rfl, h4⟩

theorem promiseBody_cacheMatches (env : Env) (ctx : appContext)
    (cfg : GoMap String UserVotingConfig) (ticket : Hash) (s : PassState)
    (hinv : CacheMatchesLookups s) :
    CacheMatchesLookups (promiseBody env ctx cfg ticket s) := by
  cases he : env.Receive s.trace s.counter ticket with
  | error err =>
    rw [promiseBody_error env ctx cfg ticket s err he]
    intro b
    show s.blockHashToHeightCache b = storedHeight (_ :: s.trace) b
    rw [storedHeight_cons _ _ _ (by rfl)]
    exact hinv b
  | ok gt =>
    rw [promiseBody_ok env ctx cfg ticket s gt he]
    apply detailsLoop_cacheMatches
    intro b
    show s.blockHashToHeightCache b = storedHeight (_ :: s.trace) b
    rw [storedHeight_cons _ _ _ (by rfl)]
    exact hinv b

theorem receiveLoop_append (env : Env) (ctx : appContext)
    (cfg : GoMap String UserVotingConfig) :
    ∀ (l1 l2 : List Hash) (s : PassState),
      receiveLoop env ctx cfg (l1 ++ l2) s =
        receiveLoop env ctx cfg l2 (receiveLoop env ctx cfg l1 s) := by
  intro l1
  induction l1 with
  | nil => intro l2 s; rfl
  | cons t rest ih => intro l2 s; exact ih l2 _

/-- A property kept by every turn of the loop over the promises is kept by the loop. -/
theorem receiveLoop_induction (env : Env) (ctx : appContext)
    (cfg : GoMap String UserVotingConfig) (P : PassState → Prop)
    (hstep : ∀ ticket s, P s → P (promiseBody env ctx cfg ticket s)) :
    ∀ (ts : List Hash) (s : PassState), P s → P (receiveLoop env ctx cfg ts s) := by
  intro ts
  induction ts with
  | nil => intro s hs; exact hs
  | cons t rest ih => intro s hs; exact ih _ (hstep t s hs)

theorem storedHeight_dispatchLoop (blockHash : Hash) :
    ∀ (ts : List Hash) (tr : List Event),
      storedHeight (dispatchLoop ts tr) blockHash = storedHeight tr blockHash := by
  intro ts
  induction ts with
  | nil => intro tr; rfl
  | cons t rest ih =>
    intro tr
    rw [dispatchLoop, ih, storedHeight_cons _ _ _ (by rfl)]

theorem receivedHashes_dispatchLoop (env : Env) :
    ∀ (ts : List Hash) (tr : List Event),
      receivedHashes env (dispatchLoop ts tr) = receivedHashes env tr := by
  intro ts
  induction ts with
  | nil => intro tr; rfl
  | cons t rest ih =>
    intro tr
    rw [dispatchLoop, ih, receivedHashes_cons env _ _ (by rfl)]

theorem startState_cacheMatches (env : Env) (tickets : List Hash) :
    CacheMatchesLookups (startState env tickets) := by
  intro b
  show GoMap.empty b = storedHeight (dispatchLoop tickets _) b
  rw [storedHeight_dispatchLoop, storedHeight_cons _ _ _ (by rfl)]
  rfl

theorem startState_received (env : Env) (tickets : List Hash) :
    receivedHashes env (startState env tickets).trace = [] := by
  show receivedHashes env (dispatchLoop tickets _) = []
  rw [receivedHashes_dispatchLoop, receivedHashes_cons env _ _ (by rfl)]
  rfl

/-- Every state between two promises of a pass has a cache that holds exactly
what the successful lookups of the pass stored. -/
theorem stateAfter_cacheMatches (env : Env) (ctx : appContext) (tickets done : List Hash) :
    CacheMatchesLookups (stateAfter env ctx tickets done) :=
  receiveLoop_induction env ctx ctx.userVotingConfig CacheMatchesLookups
    (fun t s hs => promiseBody_cacheMatches env ctx ctx.userVotingConfig t s hs)
    done _ (startState_cacheMatches env tickets)

theorem walletGetTicketsRun_of_ok (env : Env) (ctx : appContext) (tickets : List Hash)
    (hlist : env.GetTickets [] = .ok tickets) :
    walletGetTicketsRun env ctx = stateAfter env ctx tickets tickets := by
  simp [walletGetTicketsRun, hlist, stateAfter]

theorem receiveLoop_received (env : Env) (ctx : appContext)
    (cfg : GoMap String UserVotingConfig) :
    ∀ (ts : List Hash) (s : PassState), ∃ new : List Hash,
      receivedHashes env (receiveLoop env ctx cfg ts s).trace =
        new ++ receivedHashes env s.trace := by
  intro ts
  induction ts with
  | nil => intro s; exact ⟨[], rfl⟩
  | cons t rest ih =>
    intro s
    obtain ⟨new1, h1⟩ := ih (promiseBody env ctx cfg t s)
    obtain ⟨_, new2, h2, _⟩ := promiseBody_effect env ctx cfg t s
    exact ⟨new1 ++ new2, by rw [receiveLoop, h1, h2, List.append_assoc]⟩

theorem KeysReceivedAndDisjoint.step (env : Env) (ctx : appContext) (s s1 : PassState)
    (hinv : KeysReceivedAndDisjoint env s) (heff : PromiseEffect env ctx s s1)
    (hnd : (receivedHashes env s1.trace).Nodup) : KeysReceivedAndDisjoint env s1 := by
  obtain ⟨hkeys, hdisj⟩ := hinv
  obtain ⟨_, new, hrec, hmaps⟩ := heff
  rcases hmaps with ⟨hl, hi⟩ | ⟨hash, msa, hnew, hw⟩
  · refine ⟨?_, ?_⟩
    · intro k hk
      rw [hl, hi] at hk
      rw [hrec]
      exact List.mem_append_right _ (hkeys k hk)
    · intro k
      rw [hl, hi]
      exact hdisj k
  · subst hnew
    rw [hrec] at hnd
    have hfresh : hash ∉ receivedHashes env s.trace := by
      intro hmem
      have := (List.nodup_cons.mp hnd).1
      exact this hmem
    have hl0 : s.liveTickets hash = none := by
      cases hv : s.liveTickets hash with
      | none => rfl
      | some v => exact absurd (hkeys hash (Or.inl (by simp [hv]))) hfresh
    have hi0 : s.ignoredLowFeeTickets hash = none := by
      cases hv : s.ignoredLowFeeTickets hash with
      | none => rfl
      | some v => exact absurd (hkeys hash (Or.inr (by simp [hv]))) hfresh
    refine ⟨?_, ?_⟩
    · intro k hk
      rw [hrec]
      by_cases hkh : k = hash
      · subst hkh; exact List.mem_cons_self _ _
      · apply List.mem_append_right
        apply hkeys k
        rcases hw with ⟨hl, hi⟩ | ⟨_, hi, hl⟩
        · rw [hl, hi, GoMap.set_other _ _ _ _ hkh] at hk; exact hk
        · rw [hl, hi, GoMap.set_other _ _ _ _ hkh] at hk; exact hk
    · intro k
      by_cases hkh : k = hash
      · subst hkh
        rcases hw with ⟨hl, hi⟩ | ⟨_, hi, hl⟩
        · rw [hi, hi0]; simp
        · rw [hl, hl0]; simp
      · rcases hw with ⟨hl, hi⟩ | ⟨_, hi, hl⟩
        · rw [hl, hi, GoMap.set_other _ _ _ _ hkh]; exact hdisj k
        · rw [hl, hi, GoMap.set_other _ _ _ _ hkh]; exact hdisj k

theorem receiveLoop_keysDisjoint (env : Env) (ctx : appContext)
    (cfg : GoMap String UserVotingConfig) :
    ∀ (ts : List Hash) (s : PassState), KeysReceivedAndDisjoint env s →
      (receivedHashes env (receiveLoop env ctx cfg ts s).trace).Nodup →
      KeysReceivedAndDisjoint env (receiveLoop env ctx cfg ts s) := by
  intro ts
  induction ts with
  | nil => intro s hs _; exact hs
  | cons t rest ih =>
    intro s hs hnd
    rw [receiveLoop] at hnd ⊢
    obtain ⟨new, hnew⟩ := receiveLoop_received env ctx cfg rest (promiseBody env ctx cfg t s)
    have hnd1 : (receivedHashes env (promiseBody env ctx cfg t s).trace).Nodup := by
      rw [hnew] at hnd
      exact List.Nodup.of_append_right hnd
    exact ih _ (KeysReceivedAndDisjoint.step env ctx s _ hs
      (promiseBody_effect env ctx cfg t s) hnd1) hnd

/-- C1, amended: in a pass whose received transactions carry pairwise distinct
ticket hashes (the hashes parsed from their `TxID`), no ticket hash is a key of
both returned mappings. -/
theorem walletGetTickets_disjoint_of_distinct_hashes (env : Env) (ctx : appContext)
    (hdistinct : (receivedHashes env (walletGetTicketsRun env ctx).trace).Nodup) :
    ∀ hash, ¬ (((walletGetTickets env ctx).1 hash).isSome ∧
      ((walletGetTickets env ctx).2 hash).isSome) := by
  cases hlist : env.GetTickets [] with
  | error err =>
    intro hash
    simp [walletGetTickets, walletGetTicketsRun, hlist, GoMap.empty]
  | ok tickets =>
    rw [walletGetTicketsRun_of_ok env ctx tickets hlist] at hdistinct
    have hstart : KeysReceivedAndDisjoint env (startState env tickets) :=
      ⟨fun k hk => by rcases hk with hk | hk <;> simp [startState, GoMap.empty] at hk,
       fun k => by simp [startState, GoMap.empty]⟩
    have h := receiveLoop_keysDisjoint env ctx ctx.userVotingConfig tickets _ hstart hdistinct
    intro hash
    have h2 := h.2 hash
    simp only [walletGetTickets]
    rw [walletGetTicketsRun_of_ok env ctx tickets hlist]
    exact h2

/-! ## The all-success case -/

theorem detailBody_not_key (env : Env) (ctx : appContext)
    (cfg : GoMap String UserVotingConfig) (gt : GetTransactionResult) (d : TxDetail)
    (s : PassState) (h : cfg d.Address = none) :
    detailBody env ctx cfg gt d s = (.cont, s) := by
  simp [detailBody, h]

theorem detailBody_decode_error (env : Env) (ctx : appContext)
    (cfg : GoMap String UserVotingConfig) (gt : GetTransactionResult) (d : TxDetail)
    (s : PassState) (err : Error) (h : env.DecodeAddress d.Address = .error err) :
    detailBody env ctx cfg gt d s = (.cont, s) := by
  cases h1 : cfg d.Address <;> simp [detailBody, h, h1]

theorem detailBody_flagged (env : Env) (ctx : appContext)
    (cfg : GoMap String UserVotingConfig) (gt : GetTransactionResult) (d : TxDetail)
    (s : PassState) (uvc : UserVotingConfig) (addr : Address) (hash : Hash)
    (h1 : cfg d.Address = some uvc) (h2 : env.DecodeAddress d.Address = .ok addr)
    (h3 : env.NewHashFromStr gt.TxID = .ok hash)
    (h4 : (ctx.addedLowFeeTicketsMSA hash).isSome) :
    detailBody env ctx cfg gt d s =
      (.brk, { s with liveTickets := s.liveTickets.set hash uvc.MultiSigAddress }) := by
  cases h5 : ctx.addedLowFeeTicketsMSA hash with
  | none => rw [h5] at h4; cases h4
  | some m => simp [detailBody, h1, h2, h3, h5]

theorem detailBody_fee (env : Env) (ctx : appContext)
    (cfg : GoMap String UserVotingConfig) (gt : GetTransactionResult) (d : TxDetail)
    (s : PassState) (uvc : UserVotingConfig) (addr : Address) (hash : Hash) (msgTx : MsgTx)
    (blockHash : Hash) (height : Int)
    (h1 : cfg d.Address = some uvc) (h2 : env.DecodeAddress d.Address = .ok addr)
    (h3 : env.NewHashFromStr gt.TxID = .ok hash)
    (h4 : ctx.addedLowFeeTicketsMSA hash = none)
    (h5 : env.MsgTxFromHex gt.Hex = some msgTx)
    (h6 : env.NewHashFromStr gt.BlockHash = .ok blockHash)
    (h7 : (resolveHeight env blockHash s).1 = some height) :
    detailBody env ctx cfg gt d s =
      (.brk, feeStep env hash uvc.MultiSigAddress msgTx height addr
        (resolveHeight env blockHash s).2) := by
  have h8 : resolveHeight env blockHash s = (some height, (resolveHeight env blockHash s).2) :=
    Prod.ext h7 rfl
  unfold detailBody
  simp only [h1, h2, h3, h4, h5, h6]
  rw [h8]

/-- Entries on which an iteration ends with no change are passed over. -/
theorem detailsLoop_skip (env : Env) (ctx : appContext)
    (cfg : GoMap String UserVotingConfig) (gt : GetTransactionResult) (s : PassState) :
    ∀ (pre rest : List TxDetail),
      (∀ x ∈ pre, detailBody env ctx cfg gt x s = (.cont, s)) →
      detailsLoop env ctx cfg gt (pre ++ rest) s = detailsLoop env ctx cfg gt rest s := by
  intro pre
  induction pre with
  | nil => intro rest _; rfl
  | cons x xs ih =>
    intro rest h
    rw [List.cons_append, detailsLoop, h x (List.mem_cons_self _ _)]
    exact ih rest (fun y hy => h y (List.mem_cons_of_mem _ hy))

theorem detailsLoop_stop (env : Env) (ctx : appContext)
    (cfg : GoMap String UserVotingConfig) (gt : GetTransactionResult) (s s1 : PassState)
    (d : TxDetail) (rest : List TxDetail)
    (h : detailBody env ctx cfg gt d s = (.brk, s1)) :
    detailsLoop env ctx cfg gt (d :: rest) s = s1 := by
  rw [detailsLoop, h]

theorem firstMatch_split (cfg : GoMap String UserVotingConfig) (details : List TxDetail)
    (d : TxDetail) (h : firstMatch cfg details = some d) :
    ∃ pre post, details = pre ++ d :: post ∧ ∀ x ∈ pre, cfg x.Address = none := by
  unfold firstMatch at h
  obtain ⟨_, pre, post, hsplit, hpre⟩ := List.find?_eq_some.mp h
  refine ⟨pre, post, hsplit, ?_⟩
  intro x hx
  have := hpre x hx
  cases hc : cfg x.Address with
  | none => rfl
  | some v => simp [hc] at this

/-- The exact effect of one promise whose processing succeeds at every step. -/
theorem promiseBody_of_succeeds (env : Env) (ctx : appContext) (s : PassState)
    (ticket : Hash) (f : TicketFacts) (h : SucceedsAt env ctx s ticket f) :
    ((ctx.addedLowFeeTicketsMSA f.hash).isSome ∨ f.valid = true →
      (promiseBody env ctx ctx.userVotingConfig ticket s).liveTickets =
          s.liveTickets.set f.hash f.uvc.MultiSigAddress ∧
        (promiseBody env ctx ctx.userVotingConfig ticket s).ignoredLowFeeTickets =
          s.ignoredLowFeeTickets) ∧
    (ctx.addedLowFeeTicketsMSA f.hash = none ∧ f.valid = false →
      (promiseBody env ctx ctx.userVotingConfig ticket s).ignoredLowFeeTickets =
          s.ignoredLowFeeTickets.set f.hash f.uvc.MultiSigAddress ∧
        (promiseBody env ctx ctx.userVotingConfig ticket s).liveTickets = s.liveTickets) := by
  obtain ⟨hrecv, hfirst, hkey, hdec, hhash, hrest⟩ := h
  obtain ⟨pre, post, hsplit, hpre⟩ := firstMatch_split _ _ _ hfirst
  have hbody : promiseBody env ctx ctx.userVotingConfig ticket s =
      detailsLoop env ctx ctx.userVotingConfig f.gt (f.d :: post)
        (afterReceive s ticket f.gt) := by
    rw [promiseBody_ok env ctx _ ticket s f.gt hrecv, hsplit]
    exact detailsLoop_skip env ctx _ f.gt _ pre (f.d :: post)
      (fun x hx => detailBody_not_key env ctx _ f.gt x _ (hpre x hx))
  cases hflag : ctx.addedLowFeeTicketsMSA f.hash with
  | some m =>
    have hstop := detailsLoop_stop env ctx ctx.userVotingConfig f.gt _ _ f.d post
      (detailBody_flagged env ctx _ f.gt f.d (afterReceive s ticket f.gt) f.uvc f.addr f.hash
        hkey hdec hhash (by simp [hflag]))
    rw [hbody, hstop]
    refine ⟨fun _ => ⟨rfl, rfl⟩, ?_⟩
    rintro ⟨h1, _⟩
    cases h1
  | none =>
    obtain ⟨htx, hbh, hres, heval⟩ := hrest hflag
    have hstop := detailsLoop_stop env ctx ctx.userVotingConfig f.gt _ _ f.d post
      (detailBody_fee env ctx _ f.gt f.d (afterReceive s ticket f.gt) f.uvc f.addr f.hash
        f.msgTx f.blockHash f.height hkey hdec hhash hflag htx hbh hres)
    obtain ⟨_, hl, hi, _, _⟩ := resolveHeight_frame env f.blockHash (afterReceive s ticket f.gt)
    rw [hbody, hstop, feeStep_live, feeStep_ignored, heval, hl, hi]
    constructor
    · rintro (h1 | h1)
      · cases h1
      · simp only [h1, if_true]
        exact ⟨rfl, rfl⟩
    · rintro ⟨_, h1⟩
      simp only [h1, Bool.false_eq_true, if_false]
      exact ⟨rfl, rfl⟩

theorem stateAfter_snoc (env : Env) (ctx : appContext) (tickets done : List Hash)
    (ticket : Hash) :
    stateAfter env ctx tickets (done ++ [ticket]) =
      promiseBody env ctx ctx.userVotingConfig ticket (stateAfter env ctx tickets done) := by
  unfold stateAfter
  rw [receiveLoop_append]
  rfl

theorem stateAfter_take_succ (env : Env) (ctx : appContext) (tickets : List Hash) (i : Nat)
    (hi : i < tickets.length) :
    stateAfter env ctx tickets (tickets.take (i + 1)) =
      promiseBody env ctx ctx.userVotingConfig tickets[i]
        (stateAfter env ctx tickets (tickets.take i)) := by
  rw [← List.take_concat_get tickets i hi, List.concat_eq_append]
  exact stateAfter_snoc env ctx tickets _ _

/-- C2, amended: in a pass where the hashes parsed from the `TxID` of the
transactions received for the listed tickets are pairwise distinct and
every step of the processing of every ticket succeeds, the live mapping holds
exactly the hashes that are flagged or for which the evaluator returned true,
the ignored mapping holds exactly the unflagged hashes for which it returned
false, whatever error the evaluator also returned, and each value is the
`MultiSigAddress` of the snapshot entry of the matched address. -/
theorem walletGetTickets_sorts_by_flag_and_fee (env : Env) (ctx : appContext)
    (tickets : List Hash) (facts : Nat → TicketFacts)
    (hlist : env.GetTickets [] = .ok tickets)
    (hsucc : ∀ i (hi : i < tickets.length),
      SucceedsAt env ctx (stateAfter env ctx tickets (tickets.take i)) tickets[i] (facts i))
    (hdistinct : ∀ i j, i < tickets.length → j < tickets.length →
      (facts i).hash = (facts j).hash → i = j) :
    ∀ hash v,
      ((walletGetTickets env ctx).2 hash = some v ↔
        ∃ i, i < tickets.length ∧ (facts i).hash = hash ∧
          ((ctx.addedLowFeeTicketsMSA hash).isSome ∨ (facts i).valid = true) ∧
          v = (facts i).uvc.MultiSigAddress) ∧
      ((walletGetTickets env ctx).1 hash = some v ↔
        ∃ i, i < tickets.length ∧ (facts i).hash = hash ∧
          ctx.addedLowFeeTicketsMSA hash = none ∧ (facts i).valid = false ∧
          v = (facts i).uvc.MultiSigAddress) := by
  have key : ∀ n, n ≤ tickets.length → ∀ hash v,
      ((stateAfter env ctx tickets (tickets.take n)).liveTickets hash = some v ↔
        ∃ i, i < n ∧ (facts i).hash = hash ∧
          ((ctx.addedLowFeeTicketsMSA hash).isSome ∨ (facts i).valid = true) ∧
          v = (facts i).uvc.MultiSigAddress) ∧
      ((stateAfter env ctx tickets (tickets.take n)).ignoredLowFeeTickets hash = some v ↔
        ∃ i, i < n ∧ (facts i).hash = hash ∧
          ctx.addedLowFeeTicketsMSA hash = none ∧ (facts i).valid = false ∧
          v = (facts i).uvc.MultiSigAddress) := by
    intro n
    induction n with
    | zero =>
      intro _ hash v
      constructor
      · constructor
        · intro h; simp [stateAfter, receiveLoop, startState, GoMap.empty] at h
        · rintro ⟨i, hi, _⟩; exact absurd hi (Nat.not_lt_zero i)
      · constructor
        · intro h; simp [stateAfter, receiveLoop, startState, GoMap.empty] at h
        · rintro ⟨i, hi, _⟩; exact absurd hi (Nat.not_lt_zero i)
    | succ n ih =>
      intro hn hash v
      have hlt : n < tickets.length := hn
      obtain ⟨hwl, hwi⟩ := promiseBody_of_succeeds env ctx _ _ _ (hsucc n hlt)
      have ihn := ih (Nat.le_of_lt hlt)
      rw [stateAfter_take_succ env ctx tickets n hlt]
      by_cases hcase : (ctx.addedLowFeeTicketsMSA (facts n).hash).isSome ∨ (facts n).valid = true
      · obtain ⟨hl, hi⟩ := hwl hcase
        rw [hl, hi]
        have hnot : ¬ (ctx.addedLowFeeTicketsMSA (facts n).hash = none ∧
            (facts n).valid = false) := by
          rintro ⟨h1, h2⟩
          rcases hcase with h3 | h3
          · rw [h1] at h3; cases h3
          · rw [h2] at h3; cases h3
        constructor
        · by_cases hk : hash = (facts n).hash
          · subst hk
            rw [GoMap.set_self]
            constructor
            · intro hv
              cases hv
              exact ⟨n, Nat.lt_succ_self n, rfl, hcase, rfl⟩
            · rintro ⟨i, hi2, hh, _, hv⟩
              have hin : i = n := hdistinct i n (Nat.lt_of_lt_of_le hi2 hn) hlt hh
              subst hin
              rw [hv]
          · rw [GoMap.set_other _ _ _ _ hk, (ihn hash v).1]
            constructor
            · rintro ⟨i, hi2, hrest⟩
              exact ⟨i, Nat.lt_succ_of_lt hi2, hrest⟩
            · rintro ⟨i, hi2, hh, hrest⟩
              rcases Nat.lt_succ_iff_lt_or_eq.mp hi2 with h1 | h1
              · exact ⟨i, h1, hh, hrest⟩
              · subst h1; exact absurd hh.symm hk
        · rw [(ihn hash v).2]
          constructor
          · rintro ⟨i, hi2, hrest⟩
            exact ⟨i, Nat.lt_succ_of_lt hi2, hrest⟩
          · rintro ⟨i, hi2, hh, hf, hval, hv⟩
            rcases Nat.lt_succ_iff_lt_or_eq.mp hi2 with h1 | h1
            · exact ⟨i, h1, hh, hf, hval, hv⟩
            · subst h1
              subst hh
              exact absurd ⟨hf, hval⟩ hnot
      · have hcase2 : ctx.addedLowFeeTicketsMSA (facts n).hash = none ∧
            (facts n).valid = false := by
          constructor
          · cases hc : ctx.addedLowFeeTicketsMSA (facts n).hash with
            | none => rfl
            | some m => exact absurd (Or.inl (by simp [hc])) hcase
          · cases hc : (facts n).valid with
            | false => rfl
            | true => exact absurd (Or.inr hc) hcase
        obtain ⟨hi, hl⟩ := hwi hcase2
        rw [hl, hi]
        constructor
        · rw [(ihn hash v).1]
          constructor
          · rintro ⟨i, hi2, hrest⟩
            exact ⟨i, Nat.lt_succ_of_lt hi2, hrest⟩
          · rintro ⟨i, hi2, hh, hor, hv⟩
            rcases Nat.lt_succ_iff_lt_or_eq.mp hi2 with h1 | h1
            · exact ⟨i, h1, hh, hor, hv⟩
            · subst h1
              subst hh
              exact absurd hor hcase
        · by_cases hk : hash = (facts n).hash
          · subst hk
            rw [GoMap.set_self]
            constructor
            · intro hv
              cases hv
              exact ⟨n, Nat.lt_succ_self n, rfl, hcase2.1, hcase2.2, rfl⟩
            · rintro ⟨i, hi2, hh, _, _, hv⟩
              have hin : i = n := hdistinct i n (Nat.lt_of_lt_of_le hi2 hn) hlt hh
              subst hin
              rw [hv]
          · rw [GoMap.set_other _ _ _ _ hk, (ihn hash v).2]
            constructor
            · rintro ⟨i, hi2, hrest⟩
              exact ⟨i, Nat.lt_succ_of_lt hi2, hrest⟩
            · rintro ⟨i, hi2, hh, hrest⟩
              rcases Nat.lt_succ_iff_lt_or_eq.mp hi2 with h1 | h1
              · exact ⟨i, h1, hh, hrest⟩
              · subst h1; exact absurd hh.symm hk
  intro hash v
  have h := key tickets.length (Nat.le_refl _) hash v
  rw [List.take_length, ← walletGetTicketsRun_of_ok env ctx tickets hlist] at h
  exact h

/-! ## Flagged tickets -/

theorem PromiseEffect.live_mono (env : Env) (ctx : appContext) (s s1 : PassState)
    (heff : PromiseEffect env ctx s s1) (hash : Hash) (h : (s.liveTickets hash).isSome) :
    (s1.liveTickets hash).isSome := by
  obtain ⟨_, new, _, hmaps⟩ := heff
  rcases hmaps with ⟨hl, _⟩ | ⟨k, msa, _, ⟨hl, _⟩ | ⟨_, _, hl⟩⟩
  · rw [hl]; exact h
  · rw [hl]
    by_cases hk : hash = k
    · subst hk; rw [GoMap.set_self]; rfl
    · rw [GoMap.set_other _ _ _ _ hk]; exact h
  · rw [hl]; exact h

theorem PromiseEffect.noFlaggedIgnored (env : Env) (ctx : appContext) (s s1 : PassState)
    (heff : PromiseEffect env ctx s s1) (h : NoFlaggedIgnored ctx s) :
    NoFlaggedIgnored ctx s1 := by
  obtain ⟨_, new, _, hmaps⟩ := heff
  intro hash hflag
  rcases hmaps with ⟨_, hi⟩ | ⟨k, msa, _, ⟨_, hi⟩ | ⟨hk, hi, _⟩⟩
  · rw [hi]; exact h hash hflag
  · rw [hi]; exact h hash hflag
  · rw [hi]
    have hne : hash ≠ k := by
      intro heq
      subst heq
      rw [hk] at hflag
      cases hflag
    rw [GoMap.set_other _ _ _ _ hne]
    exact h hash hflag

theorem detailsLoop_flagged (env : Env) (ctx : appContext)
    (cfg : GoMap String UserVotingConfig) (gt : GetTransactionResult) (hash : Hash)
    (hhash : env.NewHashFromStr gt.TxID = .ok hash)
    (hflag : (ctx.addedLowFeeTicketsMSA hash).isSome) (s : PassState) :
    ∀ ds : List TxDetail,
      (∃ d ∈ ds, (cfg d.Address).isSome ∧ ∃ addr, env.DecodeAddress d.Address = .ok addr) →
      ∃ msa, detailsLoop env ctx cfg gt ds s =
        { s with liveTickets := s.liveTickets.set hash msa } := by
  intro ds
  induction ds with
  | nil => rintro ⟨d, hd, _⟩; cases hd
  | cons d0 rest ih =>
    rintro ⟨d, hd, hkey, addr, hdec⟩
    cases h1 : cfg d0.Address with
    | none =>
      have hne : d ≠ d0 := by
        intro heq; subst heq; rw [h1] at hkey; cases hkey
      have hmem : d ∈ rest := by
        rcases List.mem_cons.mp hd with h | h
        · exact absurd h hne
        · exact h
      rw [detailsLoop, detailBody_not_key env ctx cfg gt d0 s h1]
      exact ih ⟨d, hmem, hkey, addr, hdec⟩
    | some uvc0 =>
      cases h2 : env.DecodeAddress d0.Address with
      | error err =>
        have hne : d ≠ d0 := by
          intro heq; subst heq; rw [h2] at hdec; cases hdec
        have hmem : d ∈ rest := by
          rcases List.mem_cons.mp hd with h | h
          · exact absurd h hne
          · exact h
        rw [detailsLoop, detailBody_decode_error env ctx cfg gt d0 s err h2]
        exact ih ⟨d, hmem, hkey, addr, hdec⟩
      | ok addr0 =>
        exact ⟨uvc0.MultiSigAddress, detailsLoop_stop env ctx cfg gt s _ d0 rest
          (detailBody_flagged env ctx cfg gt d0 s uvc0 addr0 hash h1 h2 hhash hflag)⟩

/-- C3: a ticket of the pass whose detail fetch succeeds, one of whose detail
addresses is a key of the snapshot and decodes, and whose hash is a key of
`ctx.addedLowFeeTicketsMSA` is classified live: at the end of the pass its hash
is a key of the live mapping and not of the ignored mapping, whatever the
evaluator would answer, and processing the ticket issues no remote call after
the `Receive` (no header lookup, no call of the evaluator). -/
theorem flagged_ticket_classified_live (env : Env) (ctx : appContext)
    (done rest : List Hash) (ticket : Hash) (gt : GetTransactionResult) (d : TxDetail)
    (uvc : UserVotingConfig) (addr : Address) (hash : Hash)
    (hlist : env.GetTickets [] = .ok (done ++ ticket :: rest))
    (hrecv : env.Receive (stateAfter env ctx (done ++ ticket :: rest) done).trace
      (stateAfter env ctx (done ++ ticket :: rest) done).counter ticket = .ok gt)
    (hmem : d ∈ gt.Details)
    (hkey : ctx.userVotingConfig d.Address = some uvc)
    (hdec : env.DecodeAddress d.Address = .ok addr)
    (hhash : env.NewHashFromStr gt.TxID = .ok hash)
    (hflag : (ctx.addedLowFeeTicketsMSA hash).isSome) :
    ((walletGetTickets env ctx).2 hash).isSome ∧
    (walletGetTickets env ctx).1 hash = none ∧
    (promiseBody env ctx ctx.userVotingConfig ticket
        (stateAfter env ctx (done ++ ticket :: rest) done)).trace =
      Event.Receive (stateAfter env ctx (done ++ ticket :: rest) done).counter ticket (.ok gt) ::
        (stateAfter env ctx (done ++ ticket :: rest) done).trace := by
  obtain ⟨msa, hloop⟩ := detailsLoop_flagged env ctx ctx.userVotingConfig gt hash hhash hflag
    (afterReceive (stateAfter env ctx (done ++ ticket :: rest) done) ticket gt) gt.Details
    ⟨d, hmem, by simp [hkey], addr, hdec⟩
  have hbody := promiseBody_ok env ctx ctx.userVotingConfig ticket _ gt hrecv
  have hbody2 : promiseBody env ctx ctx.userVotingConfig ticket
      (stateAfter env ctx (done ++ ticket :: rest) done) =
      { afterReceive (stateAfter env ctx (done ++ ticket :: rest) done) ticket gt with
        liveTickets := (afterReceive (stateAfter env ctx (done ++ ticket :: rest) done)
          ticket gt).liveTickets.set hash msa } := by
    rw [hbody]; exact hloop
  have hrun : walletGetTicketsRun env ctx =
      receiveLoop env ctx ctx.userVotingConfig rest
        (promiseBody env ctx ctx.userVotingConfig ticket
          (stateAfter env ctx (done ++ ticket :: rest) done)) := by
    rw [walletGetTicketsRun_of_ok env ctx _ hlist]
    unfold stateAfter
    rw [receiveLoop_append]
    rfl
  refine ⟨?_, ?_, ?_⟩
  · show ((walletGetTicketsRun env ctx).liveTickets hash).isSome
    rw [hrun]
    apply receiveLoop_induction env ctx ctx.userVotingConfig
      (fun st => (st.liveTickets hash).isSome)
      (fun t st hst =>
        PromiseEffect.live_mono env ctx st _ (promiseBody_effect env ctx _ t st) hash hst)
    rw [hbody2]
    show ((GoMap.set _ hash msa) hash).isSome
    rw [GoMap.set_self]; rfl
  · show (walletGetTicketsRun env ctx).ignoredLowFeeTickets hash = none
    rw [walletGetTicketsRun_of_ok env ctx _ hlist]
    have hall : NoFlaggedIgnored ctx (stateAfter env ctx (done ++ ticket :: rest)
        (done ++ ticket :: rest)) :=
      receiveLoop_induction env ctx ctx.userVotingConfig (NoFlaggedIgnored ctx)
        (fun t st hst =>
          PromiseEffect.noFlaggedIgnored env ctx st _ (promiseBody_effect env ctx _ t st) hst)
        _ _ (fun k _ => rfl)
    exact hall hash hflag
  · rw [hbody2]; rfl

/-! ## The entry used for a ticket, and tickets left out -/

theorem issuedBy_of_append (s s1 : PassState) (ext : List Event)
    (h : s1.trace = ext ++ s.trace) : issuedBy s s1 = ext := by
  unfold issuedBy
  rw [h, List.length_append, Nat.add_sub_cancel]
  exact List.take_left' rfl

theorem resolveHeight_trace (env : Env) (blockHash : Hash) (s : PassState) :
    ∃ ext, (resolveHeight env blockHash s).2.trace = ext ++ s.trace := by
  rcases resolveHeight_cases env blockHash s with ⟨height, _, hr⟩ | ⟨err, _, _, hr⟩ |
    ⟨gbh, _, _, hr⟩
  · exact ⟨[], by rw [hr]; rfl⟩
  · exact ⟨[_], by rw [hr]; rfl⟩
  · exact ⟨[_], by rw [hr]; rfl⟩

theorem detailBody_trace (env : Env) (ctx : appContext)
    (cfg : GoMap String UserVotingConfig) (gt : GetTransactionResult) (d : TxDetail)
    (s : PassState) : ∃ ext, (detailBody env ctx cfg gt d s).2.trace = ext ++ s.trace := by
  rcases detailBody_cases env ctx cfg gt d s with hr |
    ⟨uvc, addr, hash, msgTx, blockHash, _, _, _, _, _, _, _, hr⟩ |
    ⟨uvc, addr, hash, _, _, _, _, hr⟩ |
    ⟨uvc, addr, hash, msgTx, blockHash, height, _, _, _, _, _, _, _, hr⟩
  · exact ⟨[], by rw [hr]; rfl⟩
  · rw [hr]; exact resolveHeight_trace env blockHash s
  · exact ⟨[], by rw [hr]; rfl⟩
  · obtain ⟨ext, hext⟩ := resolveHeight_trace env blockHash s
    refine ⟨Event.evaluateStakePoolTicket msgTx height addr
      (env.evaluateStakePoolTicket (resolveHeight env blockHash s).2.trace msgTx height addr) ::
        ext, ?_⟩
    rw [hr]
    show (feeStep env hash uvc.MultiSigAddress msgTx height addr _).trace = _
    rw [feeStep_trace, hext]
    rfl

theorem detailsLoop_trace (env : Env) (ctx : appContext)
    (cfg : GoMap String UserVotingConfig) (gt : GetTransactionResult) :
    ∀ (ds : List TxDetail) (s : PassState),
      ∃ ext, (detailsLoop env ctx cfg gt ds s).trace = ext ++ s.trace := by
  intro ds
  induction ds with
  | nil => intro s; exact ⟨[], rfl⟩
  | cons d rest ih =>
    intro s
    obtain ⟨ext1, h1⟩ := detailBody_trace env ctx cfg gt d s
    rw [detailsLoop]
    cases hb : detailBody env ctx cfg gt d s with
    | mk ctl s1 =>
      rw [hb] at h1
      cases ctl with
      | brk => exact ⟨ext1, h1⟩
      | cont =>
        obtain ⟨ext2, h2⟩ := ih s1
        exact ⟨ext2 ++ ext1, by
          show (detailsLoop env ctx cfg gt rest s1).trace = _
          rw [h2, h1, List.append_assoc]⟩

/-- When a decoder or parser fails for the whole ticket, the loop over the
detail list leaves the state as it is. -/
theorem detailsLoop_unchanged (env : Env) (ctx : appContext)
    (cfg : GoMap String UserVotingConfig) (gt : GetTransactionResult) :
    ∀ (ds : List TxDetail) (s : PassState),
      (∀ d ∈ ds, ∀ s2 : PassState, detailBody env ctx cfg gt d s2 = (.cont, s2)) →
      detailsLoop env ctx cfg gt ds s = s := by
  intro ds
  induction ds with
  | nil => intro s _; rfl
  | cons d rest ih =>
    intro s h
    rw [detailsLoop, h d (List.mem_cons_self _ _) s]
    exact ih s (fun x hx => h x (List.mem_cons_of_mem _ hx))

/-- An iteration that issues no remote call and does not stop the loop can only
end so for a reason that holds for every entry of the list, unless the address
of the entry is not a key or does not decode. -/
theorem detailBody_cont_same_all (env : Env) (ctx : appContext)
    (cfg : GoMap String UserVotingConfig) (gt : GetTransactionResult) (d : TxDetail)
    (s : PassState) (uvc : UserVotingConfig) (addr : Address)
    (hkey : cfg d.Address = some uvc) (hdec : env.DecodeAddress d.Address = .ok addr)
    (hcont : detailBody env ctx cfg gt d s = (.cont, s))
    (hnolookup : ∀ blockHash, (resolveHeight env blockHash s).1 = none →
      (resolveHeight env blockHash s).2 ≠ s) :
    ∀ (x : TxDetail) (s2 : PassState), detailBody env ctx cfg gt x s2 = (.cont, s2) := by
  intro x s2
  have hmine := detailBody_cases env ctx cfg gt d s
  rcases detailBody_cases env ctx cfg gt x s2 with hr |
    ⟨_, _, hash2, msgTx2, bh2, _, _, hh2, hf2, htx2, hbh2, _, _⟩ |
    ⟨_, _, hash2, _, _, hh2, hf2, _⟩ |
    ⟨_, _, hash2, msgTx2, bh2, _, _, _, hh2, hf2, htx2, hbh2, _, _⟩
  · exact hr
  · exfalso
    cases hres : (resolveHeight env bh2 s).1 with
    | none =>
      have h8 : resolveHeight env bh2 s = (none, (resolveHeight env bh2 s).2) :=
        Prod.ext hres rfl
      have e1 : detailBody env ctx cfg gt d s = (.cont, (resolveHeight env bh2 s).2) := by
        unfold detailBody
        simp only [hkey, hdec, hh2, hf2, htx2, hbh2]
        rw [h8]
      rw [e1] at hcont
      exact hnolookup bh2 hres (Prod.mk.inj hcont).2
    | some height =>
      rw [detailBody_fee env ctx cfg gt d s uvc addr hash2 msgTx2 bh2 height hkey hdec hh2 hf2
        htx2 hbh2 hres] at hcont
      cases (Prod.mk.inj hcont).1
  · exfalso
    rw [detailBody_flagged env ctx cfg gt d s uvc addr hash2 hkey hdec hh2 hf2] at hcont
    cases (Prod.mk.inj hcont).1
  · exfalso
    cases hres : (resolveHeight env bh2 s).1 with
    | none =>
      have h8 : resolveHeight env bh2 s = (none, (resolveHeight env bh2 s).2) :=
        Prod.ext hres rfl
      have e1 : detailBody env ctx cfg gt d s = (.cont, (resolveHeight env bh2 s).2) := by
        unfold detailBody
        simp only [hkey, hdec, hh2, hf2, htx2, hbh2]
        rw [h8]
      rw [e1] at hcont
      exact hnolookup bh2 hres (Prod.mk.inj hcont).2
    | some height =>
      rw [detailBody_fee env ctx cfg gt d s uvc addr hash2 msgTx2 bh2 height hkey hdec hh2 hf2
        htx2 hbh2 hres] at hcont
      cases (Prod.mk.inj hcont).1

theorem resolveHeight_none_changes (env : Env) (blockHash : Hash) (s : PassState)
    (h : (resolveHeight env blockHash s).1 = none) :
    ∃ err, (resolveHeight env blockHash s).2 =
      { s with trace := Event.GetBlockHeader blockHash (.error err) :: s.trace } := by
  rcases resolveHeight_cases env blockHash s with ⟨height, _, hr⟩ | ⟨err, _, _, hr⟩ |
    ⟨gbh, _, _, hr⟩
  · rw [hr] at h; cases h
  · exact ⟨err, by rw [hr]⟩
  · rw [hr] at h; cases h

theorem resolveHeight_none_ne (env : Env) (blockHash : Hash) (s : PassState)
    (h : (resolveHeight env blockHash s).1 = none) : (resolveHeight env blockHash s).2 ≠ s := by
  obtain ⟨err, he⟩ := resolveHeight_none_changes env blockHash s h
  rw [he]
  intro heq
  have := congrArg PassState.trace heq
  exact List.cons_ne_self _ _ this

theorem exists_first_split {α : Type} (p : α → Prop) :
    ∀ l : List α, (∃ a ∈ l, p a) →
      ∃ pre a post, l = pre ++ a :: post ∧ p a ∧ ∀ x ∈ pre, ¬ p x := by
  intro l
  induction l with
  | nil => rintro ⟨a, ha, _⟩; cases ha
  | cons b rest ih =>
    rintro ⟨a, ha, hpa⟩
    by_cases hb : p b
    · exact ⟨[], b, rest, rfl, hb, fun x hx => by cases hx⟩
    · have hmem : a ∈ rest := by
        rcases List.mem_cons.mp ha with h | h
        · subst h; exact absurd hpa hb
        · exact h
      obtain ⟨pre, c, post, hsplit, hc, hpre⟩ := ih ⟨a, hmem, hpa⟩
      refine ⟨b :: pre, c, post, by rw [hsplit]; rfl, hc, ?_⟩
      intro x hx
      rcases List.mem_cons.mp hx with h | h
      · subst h; exact hb
      · exact hpre x h

/-- C5, amended: for every ticket during whose processing no `GetBlockHeader`
fails, either the ticket is placed in neither mapping (the state is the one
right after the `Receive`), or it is placed with the user of the first detail
entry, in list order, whose address is a key of the snapshot and decodes:
entries before it that are not keys or that fail to decode are passed over,
also when they or later entries match a known user; for a flagged ticket the
live mapping receives the `MultiSigAddress` of that entry and no further remote
call is issued; for an unflagged ticket the evaluator is called with the decoded
address of that entry and the mapping selected by its boolean receives the
`MultiSigAddress` of that entry. -/
theorem ticket_uses_first_decodable_match (env : Env) (ctx : appContext) (s : PassState)
    (ticket : Hash) (gt : GetTransactionResult)
    (hrecv : env.Receive s.trace s.counter ticket = .ok gt)
    (hnofail : ∀ blockHash err, Event.GetBlockHeader blockHash (.error err) ∉
      issuedBy s (promiseBody env ctx ctx.userVotingConfig ticket s)) :
    promiseBody env ctx ctx.userVotingConfig ticket s = afterReceive s ticket gt ∨
    ∃ pre d post uvc addr hash,
      gt.Details = pre ++ d :: post ∧
      (∀ x ∈ pre, ctx.userVotingConfig x.Address = none ∨
        ∃ err, env.DecodeAddress x.Address = .error err) ∧
      ctx.userVotingConfig d.Address = some uvc ∧
      env.DecodeAddress d.Address = .ok addr ∧
      env.NewHashFromStr gt.TxID = .ok hash ∧
      (((ctx.addedLowFeeTicketsMSA hash).isSome ∧
          (promiseBody env ctx ctx.userVotingConfig ticket s).liveTickets =
            s.liveTickets.set hash uvc.MultiSigAddress ∧
          (promiseBody env ctx ctx.userVotingConfig ticket s).ignoredLowFeeTickets =
            s.ignoredLowFeeTickets ∧
          (promiseBody env ctx ctx.userVotingConfig ticket s).trace =
            Event.Receive s.counter ticket (.ok gt) :: s.trace) ∨
        (ctx.addedLowFeeTicketsMSA hash = none ∧
          ∃ msgTx height res rest,
            (promiseBody env ctx ctx.userVotingConfig ticket s).trace =
              Event.evaluateStakePoolTicket msgTx height addr res :: rest ∧
            ((res.1 = true ∧
                (promiseBody env ctx ctx.userVotingConfig ticket s).liveTickets =
                  s.liveTickets.set hash uvc.MultiSigAddress ∧
                (promiseBody env ctx ctx.userVotingConfig ticket s).ignoredLowFeeTickets =
                  s.ignoredLowFeeTickets) ∨
              (res.1 = false ∧
                (promiseBody env ctx ctx.userVotingConfig ticket s).ignoredLowFeeTickets =
                  s.ignoredLowFeeTickets.set hash uvc.MultiSigAddress ∧
                (promiseBody env ctx ctx.userVotingConfig ticket s).liveTickets =
                  s.liveTickets)))) := by
  have hbody0 := promiseBody_ok env ctx ctx.userVotingConfig ticket s gt hrecv
  by_cases hex : ∃ d ∈ gt.Details, (ctx.userVotingConfig d.Address).isSome ∧
      ∃ addr, env.DecodeAddress d.Address = .ok addr
  · obtain ⟨pre, d, post, hsplit, ⟨hkey0, addr0, hdec0⟩, hpre0⟩ :=
      exists_first_split _ gt.Details hex
    have hpre : ∀ x ∈ pre, ctx.userVotingConfig x.Address = none ∨
        ∃ err, env.DecodeAddress x.Address = .error err := by
      intro x hx
      have hn := hpre0 x hx
      cases hk : ctx.userVotingConfig x.Address with
      | none => exact Or.inl rfl
      | some u =>
        right
        cases hd : env.DecodeAddress x.Address with
        | error err => exact ⟨err, rfl⟩
        | ok a => exact absurd ⟨by simp [hk], a, hd⟩ hn
    obtain ⟨uvc0, hkey1⟩ := Option.isSome_iff_exists.mp hkey0
    have hbody : promiseBody env ctx ctx.userVotingConfig ticket s =
        detailsLoop env ctx ctx.userVotingConfig gt (d :: post) (afterReceive s ticket gt) := by
      rw [hbody0, hsplit]
      apply detailsLoop_skip env ctx _ gt _ pre (d :: post)
      intro x hx
      rcases hpre x hx with h | ⟨err, h⟩
      · exact detailBody_not_key env ctx _ gt x _ h
      · exact detailBody_decode_error env ctx _ gt x _ err h
    rcases detailBody_cases env ctx ctx.userVotingConfig gt d (afterReceive s ticket gt) with
      hr | ⟨uvc, addr, hash, msgTx, blockHash, _, _, _, _, _, _, hnone, hr⟩ |
      ⟨uvc, addr, hash, hkey, hdec, hh, hf, hr⟩ |
      ⟨uvc, addr, hash, msgTx, blockHash, height, hkey, hdec, hh, hf, htx, hbh, hres, hr⟩
    · left
      have hall := detailBody_cont_same_all env ctx ctx.userVotingConfig gt d
        (afterReceive s ticket gt) uvc0 addr0 hkey1 hdec0 hr
        (fun b hb => resolveHeight_none_ne env b _ hb)
      rw [hbody]
      exact detailsLoop_unchanged env ctx _ gt (d :: post) _ (fun x _ s2 => hall x s2)
    · exfalso
      obtain ⟨err, he⟩ := resolveHeight_none_changes env blockHash _ hnone
      obtain ⟨ext, hext⟩ := detailsLoop_trace env ctx ctx.userVotingConfig gt post
        (resolveHeight env blockHash (afterReceive s ticket gt)).2
      have hloop : detailsLoop env ctx ctx.userVotingConfig gt (d :: post)
          (afterReceive s ticket gt) =
          detailsLoop env ctx ctx.userVotingConfig gt post
            (resolveHeight env blockHash (afterReceive s ticket gt)).2 := by
        rw [detailsLoop, hr]
      have htrace : (promiseBody env ctx ctx.userVotingConfig ticket s).trace =
          (ext ++ [Event.GetBlockHeader blockHash (.error err),
            Event.Receive s.counter ticket (.ok gt)]) ++ s.trace := by
        rw [hbody, hloop, hext, he]
        simp [afterReceive]
      have hissued := issuedBy_of_append s _ _ htrace
      apply hnofail blockHash err
      rw [hissued]
      simp
    · right
      have hstop := detailsLoop_stop env ctx ctx.userVotingConfig gt _ _ d post hr
      refine ⟨pre, d, post, uvc, addr, hash, hsplit, hpre, hkey, hdec, hh, Or.inl ⟨hf, ?_⟩⟩
      rw [hbody, hstop]
      exact ⟨rfl, rfl, rfl⟩
    · right
      have hstop := detailsLoop_stop env ctx ctx.userVotingConfig gt _ _ d post hr
      obtain ⟨_, hl, hi, _, _⟩ := resolveHeight_frame env blockHash (afterReceive s ticket gt)
      refine ⟨pre, d, post, uvc, addr, hash, hsplit, hpre, hkey, hdec, hh,
        Or.inr ⟨hf, msgTx, height,
          env.evaluateStakePoolTicket
            (resolveHeight env blockHash (afterReceive s ticket gt)).2.trace msgTx height addr,
          (resolveHeight env blockHash (afterReceive s ticket gt)).2.trace, ?_, ?_⟩⟩
      · rw [hbody, hstop, feeStep_trace]
      · rw [hbody, hstop, feeStep_live, feeStep_ignored, hl, hi]
        by_cases hv : (env.evaluateStakePoolTicket
            (resolveHeight env blockHash (afterReceive s ticket gt)).2.trace msgTx height
            addr).1 = true
        · rw [if_pos hv, if_pos hv]
          exact Or.inl ⟨hv, rfl, rfl⟩
        · rw [if_neg hv, if_neg hv]
          exact Or.inr ⟨by simpa using hv, rfl, rfl⟩
  · left
    rw [hbody0]
    apply detailsLoop_unchanged env ctx _ gt gt.Details
    intro x hx s2
    cases hk : ctx.userVotingConfig x.Address with
    | none => exact detailBody_not_key env ctx _ gt x s2 hk
    | some u =>
      cases hd : env.DecodeAddress x.Address with
      | error err => exact detailBody_decode_error env ctx _ gt x s2 err hd
      | ok a => exact absurd ⟨x, hx, by simp [hk], a, hd⟩ hex

/-- When the block hash of an unflagged ticket is not cached and none of the
lookups issued by the loop over the detail list succeeds, the loop writes no
mapping entry. -/
theorem detailsLoop_lookups_fail (env : Env) (ctx : appContext)
    (cfg : GoMap String UserVotingConfig) (gt : GetTransactionResult) (s0 : PassState)
    (hash blockHash : Hash) (hid : env.NewHashFromStr gt.TxID = .ok hash)
    (hflag : ctx.addedLowFeeTicketsMSA hash = none)
    (hbh : env.NewHashFromStr gt.BlockHash = .ok blockHash) :
    ∀ (ds : List TxDetail) (s2 : PassState) (ext2 : List Event),
      s2.trace = ext2 ++ s0.trace →
      s2.blockHashToHeightCache blockHash = none →
      (∀ gbh, Event.GetBlockHeader blockHash (.ok gbh) ∉
        issuedBy s0 (detailsLoop env ctx cfg gt ds s2)) →
      (detailsLoop env ctx cfg gt ds s2).liveTickets = s2.liveTickets ∧
      (detailsLoop env ctx cfg gt ds s2).ignoredLowFeeTickets = s2.ignoredLowFeeTickets := by
  intro ds
  induction ds with
  | nil => intro s2 _ _ _ _; exact ⟨rfl, rfl⟩
  | cons d rest ih =>
    intro s2 ext2 htr hcache hno
    rcases detailBody_cases env ctx cfg gt d s2 with hr |
      ⟨_, _, _, _, b, _, _, _, _, _, h6, hnone, hr⟩ | ⟨_, _, k, _, _, hh, hf, _⟩ |
      ⟨uvc, addr, k, msgTx, b, height, _, _, hh, _, _, h6, hres, hr⟩
    · have hloop : detailsLoop env ctx cfg gt (d :: rest) s2 =
          detailsLoop env ctx cfg gt rest s2 := by rw [detailsLoop, hr]
      rw [hloop] at hno ⊢
      exact ih s2 ext2 htr hcache hno
    · rw [hbh] at h6; cases h6
      obtain ⟨err, he⟩ := resolveHeight_none_changes env blockHash s2 hnone
      have hloop : detailsLoop env ctx cfg gt (d :: rest) s2 =
          detailsLoop env ctx cfg gt rest
            { s2 with trace := Event.GetBlockHeader blockHash (.error err) :: s2.trace } := by
        rw [detailsLoop, hr, he]
      rw [hloop] at hno ⊢
      exact ih _ (Event.GetBlockHeader blockHash (.error err) :: ext2)
        (by show _ :: s2.trace = _; rw [htr]; rfl) hcache hno
    · rw [hid] at hh; cases hh; rw [hflag] at hf; cases hf
    · exfalso
      rw [hbh] at h6; cases h6
      rcases resolveHeight_cases env blockHash s2 with ⟨h2, hc2, _⟩ | ⟨err, _, _, hr2⟩ |
        ⟨gbh, _, _, hr2⟩
      · rw [hcache] at hc2; cases hc2
      · rw [hr2] at hres; cases hres
      · have hloop : detailsLoop env ctx cfg gt (d :: rest) s2 =
            feeStep env k uvc.MultiSigAddress msgTx height addr
              (resolveHeight env blockHash s2).2 := by rw [detailsLoop, hr]
        have htrace : (detailsLoop env ctx cfg gt (d :: rest) s2).trace =
            (Event.evaluateStakePoolTicket msgTx height addr
              (env.evaluateStakePoolTicket (resolveHeight env blockHash s2).2.trace msgTx
                height addr) :: Event.GetBlockHeader blockHash (.ok gbh) :: ext2) ++
              s0.trace := by
          rw [hloop, feeStep_trace, hr2]
          show _ :: _ :: s2.trace = _
          rw [htr]; rfl
        apply hno gbh
        rw [issuedBy_of_append s0 _ _ htrace]
        simp

/-- C4, amended: a ticket that hits a per-ticket error is left out of both
mappings.  The errors are: the detail fetch fails; no detail address is a key
of the snapshot; every detail address that is a key fails to decode; the
transaction id fails to parse; or, for an unflagged ticket, the raw transaction
fails to parse, the block hash fails to parse, or the block hash is not cached
and every `GetBlockHeader` issued for it while the ticket is processed fails. -/
theorem ticket_with_error_left_out (env : Env) (ctx : appContext) (s : PassState)
    (ticket : Hash) (herr : HitsError env ctx s ticket) :
    (promiseBody env ctx ctx.userVotingConfig ticket s).liveTickets = s.liveTickets ∧
    (promiseBody env ctx ctx.userVotingConfig ticket s).ignoredLowFeeTickets =
      s.ignoredLowFeeTickets := by
  rcases herr with ⟨err, he⟩ | ⟨gt, hrecv, hcases⟩
  · rw [promiseBody_error env ctx _ ticket s err he]
    exact ⟨rfl, rfl⟩
  · have hbody := promiseBody_ok env ctx ctx.userVotingConfig ticket s gt hrecv
    have hpure : (∀ d ∈ gt.Details, ∀ s2 : PassState,
        detailBody env ctx ctx.userVotingConfig gt d s2 = (.cont, s2)) →
        (promiseBody env ctx ctx.userVotingConfig ticket s).liveTickets = s.liveTickets ∧
        (promiseBody env ctx ctx.userVotingConfig ticket s).ignoredLowFeeTickets =
          s.ignoredLowFeeTickets := by
      intro hall
      rw [hbody, detailsLoop_unchanged env ctx _ gt gt.Details _ hall]
      exact ⟨rfl, rfl⟩
    rcases hcases with hnokey | hnodec | ⟨err, hid⟩ | ⟨hash, hid, hflag, hlater⟩
    · exact hpure (fun d hd s2 => detailBody_not_key env ctx _ gt d s2 (hnokey d hd))
    · apply hpure
      intro d hd s2
      cases hk : ctx.userVotingConfig d.Address with
      | none => exact detailBody_not_key env ctx _ gt d s2 hk
      | some uvc =>
        obtain ⟨err, hde⟩ := hnodec d hd (by simp [hk])
        exact detailBody_decode_error env ctx _ gt d s2 err hde
    · apply hpure
      intro d _ s2
      rcases detailBody_cases env ctx ctx.userVotingConfig gt d s2 with hr |
        ⟨_, _, _, _, _, _, _, hh, _⟩ | ⟨_, _, _, _, _, hh, _⟩ |
        ⟨_, _, _, _, _, _, _, _, hh, _⟩
      · exact hr
      · rw [hid] at hh; cases hh
      · rw [hid] at hh; cases hh
      · rw [hid] at hh; cases hh
    · rcases hlater with htx | ⟨err, hbh⟩ | ⟨blockHash, hbh, hcache, hfail⟩
      · apply hpure
        intro d _ s2
        rcases detailBody_cases env ctx ctx.userVotingConfig gt d s2 with hr |
          ⟨_, _, _, _, _, _, _, _, _, h5, _⟩ | ⟨_, _, k, _, _, hh, hf, _⟩ |
          ⟨_, _, _, _, _, _, _, _, _, _, h5, _⟩
        · exact hr
        · rw [htx] at h5; cases h5
        · rw [hid] at hh; cases hh; rw [hflag] at hf; cases hf
        · rw [htx] at h5; cases h5
      · apply hpure
        intro d _ s2
        rcases detailBody_cases env ctx ctx.userVotingConfig gt d s2 with hr |
          ⟨_, _, _, _, _, _, _, _, _, _, h6, _⟩ | ⟨_, _, k, _, _, hh, hf, _⟩ |
          ⟨_, _, _, _, _, _, _, _, _, _, _, h6, _⟩
        · exact hr
        · rw [hbh] at h6; cases h6
        · rw [hid] at hh; cases hh; rw [hflag] at hf; cases hf
        · rw [hbh] at h6; cases h6
      · rw [hbody] at hfail ⊢
        exact detailsLoop_lookups_fail env ctx ctx.userVotingConfig gt s hash blockHash hid
          hflag hbh gt.Details (afterReceive s ticket gt)
          [Event.Receive s.counter ticket (.ok gt)] rfl hcache hfail

/-! ## Fixed responses -/

theorem resolveHeight_sameData (env env2 : Env) (hsame : env.SameAnswers env2)
    (blockHash : Hash) (s s2 : PassState) (h : SameData s s2) :
    (resolveHeight env blockHash s).1 = (resolveHeight env2 blockHash s2).1 ∧
    SameData (resolveHeight env blockHash s).2 (resolveHeight env2 blockHash s2).2 := by
  obtain ⟨hc, hi, hl, hn⟩ := h
  have hc2 : s.blockHashToHeightCache blockHash = s2.blockHashToHeightCache blockHash := by
    rw [hc]
  cases hcache : s2.blockHashToHeightCache blockHash with
  | some height =>
    rw [resolveHeight_hit env blockHash s height (hc2.trans hcache),
      resolveHeight_hit env2 blockHash s2 height hcache]
    exact ⟨rfl, hc, hi, hl, hn⟩
  | none =>
    have hg := hsame.2.1 s.trace s2.trace blockHash
    cases he : env2.GetBlockHeader s2.trace blockHash with
    | error err =>
      rw [resolveHeight_miss_error env blockHash s err (hc2.trans hcache) (hg.trans he),
        resolveHeight_miss_error env2 blockHash s2 err hcache he]
      exact ⟨rfl, hc, hi, hl, hn⟩
    | ok gbh =>
      rw [resolveHeight_miss_ok env blockHash s gbh (hc2.trans hcache) (hg.trans he),
        resolveHeight_miss_ok env2 blockHash s2 gbh hcache he]
      refine ⟨rfl, ?_, hi, hl, hn⟩
      show s.blockHashToHeightCache.set blockHash _ = s2.blockHashToHeightCache.set blockHash _
      rw [hc]

theorem feeStep_sameData (env env2 : Env) (hsame : env.SameAnswers env2)
    (hash : Hash) (msa : String) (msgTx : MsgTx) (height : Int) (addr : Address)
    (s s2 : PassState) (h : SameData s s2) :
    SameData (feeStep env hash msa msgTx height addr s)
      (feeStep env2 hash msa msgTx height addr s2) := by
  obtain ⟨hc, hi, hl, hn⟩ := h
  have hev := hsame.2.2.1 s.trace s2.trace msgTx height addr
  refine ⟨?_, ?_, ?_, ?_⟩
  · rw [feeStep_cache, feeStep_cache, hc]
  · rw [feeStep_ignored, feeStep_ignored, hev, hi]
  · rw [feeStep_live, feeStep_live, hev, hl]
  · by_cases hv : (env2.evaluateStakePoolTicket s2.trace msgTx height addr).1 = true
    · have hv1 := hv
      rw [← hev] at hv1
      simp [feeStep, hv, hv1, hn]
    · have hv1 := hv
      rw [← hev] at hv1
      simp [feeStep, hv, hv1, hn]

theorem detailBody_sameData (env env2 : Env) (hsame : env.SameAnswers env2)
    (ctx : appContext) (cfg : GoMap String UserVotingConfig) (gt : GetTransactionResult)
    (d : TxDetail) (s s2 : PassState) (h : SameData s s2) :
    (detailBody env ctx cfg gt d s).1 = (detailBody env2 ctx cfg gt d s2).1 ∧
    SameData (detailBody env ctx cfg gt d s).2 (detailBody env2 ctx cfg gt d s2).2 := by
  have hdecode := hsame.2.2.2.1
  have hparse := hsame.2.2.2.2.1
  have hmsg := hsame.2.2.2.2.2
  cases h1 : cfg d.Address with
  | none =>
    rw [detailBody_not_key env ctx cfg gt d s h1, detailBody_not_key env2 ctx cfg gt d s2 h1]
    exact ⟨rfl, h⟩
  | some uvc =>
    cases h2 : env2.DecodeAddress d.Address with
    | error e =>
      rw [detailBody_decode_error env ctx cfg gt d s e (by rw [hdecode]; exact h2),
        detailBody_decode_error env2 ctx cfg gt d s2 e h2]
      exact ⟨rfl, h⟩
    | ok addr =>
      have h2a : env.DecodeAddress d.Address = .ok addr := by rw [hdecode]; exact h2
      cases h3 : env2.NewHashFromStr gt.TxID with
      | error e =>
        have h3a : env.NewHashFromStr gt.TxID = .error e := by rw [hparse]; exact h3
        have e1 : detailBody env ctx cfg gt d s = (.cont, s) := by
          simp [detailBody, h1, h2a, h3a]
        have e2 : detailBody env2 ctx cfg gt d s2 = (.cont, s2) := by
          simp [detailBody, h1, h2, h3]
        rw [e1, e2]; exact ⟨rfl, h⟩
      | ok hash =>
        have h3a : env.NewHashFromStr gt.TxID = .ok hash := by rw [hparse]; exact h3
        cases h4 : ctx.addedLowFeeTicketsMSA hash with
        | some m =>
          rw [detailBody_flagged env ctx cfg gt d s uvc addr hash h1 h2a h3a (by simp [h4]),
            detailBody_flagged env2 ctx cfg gt d s2 uvc addr hash h1 h2 h3 (by simp [h4])]
          refine ⟨rfl, h.1, h.2.1, ?_, h.2.2.2⟩
          show s.liveTickets.set hash _ = s2.liveTickets.set hash _
          rw [h.2.2.1]
        | none =>
          cases h5 : env2.MsgTxFromHex gt.Hex with
          | none =>
            have h5a : env.MsgTxFromHex gt.Hex = none := by rw [hmsg]; exact h5
            have e1 : detailBody env ctx cfg gt d s = (.cont, s) := by
              simp [detailBody, h1, h2a, h3a, h4, h5a]
            have e2 : detailBody env2 ctx cfg gt d s2 = (.cont, s2) := by
              simp [detailBody, h1, h2, h3, h4, h5]
            rw [e1, e2]; exact ⟨rfl, h⟩
          | some msgTx =>
            have h5a : env.MsgTxFromHex gt.Hex = some msgTx := by rw [hmsg]; exact h5
            cases h6 : env2.NewHashFromStr gt.BlockHash with
            | error e =>
              have h6a : env.NewHashFromStr gt.BlockHash = .error e := by rw [hparse]; exact h6
              have e1 : detailBody env ctx cfg gt d s = (.cont, s) := by
                simp [detailBody, h1, h2a, h3a, h4, h5a, h6a]
              have e2 : detailBody env2 ctx cfg gt d s2 = (.cont, s2) := by
                simp [detailBody, h1, h2, h3, h4, h5, h6]
              rw [e1, e2]; exact ⟨rfl, h⟩
            | ok blockHash =>
              have h6a : env.NewHashFromStr gt.BlockHash = .ok blockHash := by
                rw [hparse]; exact h6
              obtain ⟨hr1, hr2⟩ := resolveHeight_sameData env env2 hsame blockHash s s2 h
              cases h7 : (resolveHeight env2 blockHash s2).1 with
              | none =>
                have h7a : (resolveHeight env blockHash s).1 = none := hr1.trans h7
                have e1 : detailBody env ctx cfg gt d s =
                    (.cont, (resolveHeight env blockHash s).2) := by
                  have : resolveHeight env blockHash s =
                      (none, (resolveHeight env blockHash s).2) := Prod.ext h7a rfl
                  unfold detailBody
                  simp only [h1, h2a, h3a, h4, h5a, h6a]
                  rw [this]
                have e2 : detailBody env2 ctx cfg gt d s2 =
                    (.cont, (resolveHeight env2 blockHash s2).2) := by
                  have : resolveHeight env2 blockHash s2 =
                      (none, (resolveHeight env2 blockHash s2).2) := Prod.ext h7 rfl
                  unfold detailBody
                  simp only [h1, h2, h3, h4, h5, h6]
                  rw [this]
                rw [e1, e2]; exact ⟨rfl, hr2⟩
              | some height =>
                have h7a : (resolveHeight env blockHash s).1 = some height := hr1.trans h7
                rw [detailBody_fee env ctx cfg gt d s uvc addr hash msgTx blockHash height
                    h1 h2a h3a h4 h5a h6a h7a,
                  detailBody_fee env2 ctx cfg gt d s2 uvc addr hash msgTx blockHash height
                    h1 h2 h3 h4 h5 h6 h7]
                exact ⟨rfl, feeStep_sameData env env2 hsame _ _ _ _ _ _ _ hr2⟩

theorem detailsLoop_sameData (env env2 : Env) (hsame : env.SameAnswers env2)
    (ctx : appContext) (cfg : GoMap String UserVotingConfig) (gt : GetTransactionResult) :
    ∀ (ds : List TxDetail) (s s2 : PassState), SameData s s2 →
      SameData (detailsLoop env ctx cfg gt ds s) (detailsLoop env2 ctx cfg gt ds s2) := by
  intro ds
  induction ds with
  | nil => intro s s2 h; exact h
  | cons d rest ih =>
    intro s s2 h
    obtain ⟨hctl, hdata⟩ := detailBody_sameData env env2 hsame ctx cfg gt d s s2 h
    rw [detailsLoop, detailsLoop]
    cases hb : detailBody env ctx cfg gt d s with
    | mk ctl s1 =>
      cases hb2 : detailBody env2 ctx cfg gt d s2 with
      | mk ctl2 s3 =>
        rw [hb, hb2] at hctl hdata
        cases hctl
        cases ctl with
        | brk => exact hdata
        | cont => exact ih s1 s3 hdata

theorem promiseBody_sameData (env env2 : Env) (hsame : env.SameAnswers env2)
    (ctx : appContext) (cfg : GoMap String UserVotingConfig) (ticket : Hash)
    (s s2 : PassState) (h : SameData s s2) :
    SameData (promiseBody env ctx cfg ticket s) (promiseBody env2 ctx cfg ticket s2) := by
  have hr := hsame.1 s.trace s2.trace s.counter s2.counter ticket
  cases he : env2.Receive s2.trace s2.counter ticket with
  | error err =>
    rw [promiseBody_error env ctx cfg ticket s err (hr.trans he),
      promiseBody_error env2 ctx cfg ticket s2 err he]
    exact h
  | ok gt =>
    rw [promiseBody_ok env ctx cfg ticket s gt (hr.trans he),
      promiseBody_ok env2 ctx cfg ticket s2 gt he]
    exact detailsLoop_sameData env env2 hsame ctx cfg gt gt.Details _ _ h

theorem receiveLoop_sameData (env env2 : Env) (hsame : env.SameAnswers env2)
    (ctx : appContext) (cfg : GoMap String UserVotingConfig) :
    ∀ (ts : List Hash) (s s2 : PassState), SameData s s2 →
      SameData (receiveLoop env ctx cfg ts s) (receiveLoop env2 ctx cfg ts s2) := by
  intro ts
  induction ts with
  | nil => intro s s2 h; exact h
  | cons t rest ih =>
    intro s s2 h
    exact ih _ _ (promiseBody_sameData env env2 hsame ctx cfg t s s2 h)

/-- C10: with fixed wallet, node and evaluator responses, when the detail fetch
of a listed ticket fails, `walletGetTickets` returns the same two mappings as
for the list without that ticket. -/
theorem failed_fetch_skips_that_ticket_alone (env : Env) (ctx : appContext)
    (before after : List Hash) (ticket : Hash) (err : Error)
    (hfixed : env.FixedResponses)
    (hfail : env.Receive [] 0 ticket = .error err) :
    walletGetTickets { env with GetTickets := fun _ => .ok (before ++ ticket :: after) } ctx =
      walletGetTickets { env with GetTickets := fun _ => .ok (before ++ after) } ctx := by
  have hsame : Env.SameAnswers
      { env with GetTickets := fun _ => .ok (before ++ ticket :: after) }
      { env with GetTickets := fun _ => .ok (before ++ after) } := hfixed
  have hstart : SameData
      (startState { env with GetTickets := fun _ => .ok (before ++ ticket :: after) }
        (before ++ ticket :: after))
      (startState { env with GetTickets := fun _ => .ok (before ++ after) }
        (before ++ after)) := ⟨rfl, rfl, rfl, rfl⟩
  have h1 := receiveLoop_sameData _ _ hsame ctx ctx.userVotingConfig before _ _ hstart
  have hfail2 : ∀ s : PassState, SameData
      (promiseBody { env with GetTickets := fun _ => .ok (before ++ ticket :: after) } ctx
        ctx.userVotingConfig ticket s) s := by
    intro s
    have he : env.Receive s.trace s.counter ticket = .error err :=
      (hfixed.1 s.trace [] s.counter 0 ticket).trans hfail
    rw [promiseBody_error { env with GetTickets := fun _ => .ok (before ++ ticket :: after) }
      ctx ctx.userVotingConfig ticket s err he]
    exact ⟨rfl, rfl, rfl, rfl⟩
  have h2 := receiveLoop_sameData _ _ hsame ctx ctx.userVotingConfig after _ _
    (show SameData _ _ from
      ⟨(hfail2 _).1.trans h1.1, (hfail2 _).2.1.trans h1.2.1, (hfail2 _).2.2.1.trans h1.2.2.1,
        (hfail2 _).2.2.2.trans h1.2.2.2⟩)
  have hrun1 := walletGetTicketsRun_of_ok
    { env with GetTickets := fun _ => .ok (before ++ ticket :: after) } ctx
    (before ++ ticket :: after) rfl
  have hrun2 := walletGetTicketsRun_of_ok
    { env with GetTickets := fun _ => .ok (before ++ after) } ctx (before ++ after) rfl
  unfold walletGetTickets
  rw [hrun1, hrun2]
  unfold stateAfter
  rw [receiveLoop_append, receiveLoop_append]
  exact Prod.ext h2.2.1 h2.2.2.1

/-! ## The properties on concrete passes -/

/-- Counterexample to C1 as stated: the wallet lists two tickets and answers
both detail fetches with the same `TxID`; the evaluator accepts the fee of the
first transaction and rejects that of the second, and the hash parsed from the
`TxID` ends as a key of both returned mappings. -/
theorem walletGetTickets_not_disjoint_same_txid :
    (walletGetTickets exEnvSameTxID exCtx).1 { val := 2 } = some "msaC" ∧
    (walletGetTickets exEnvSameTxID exCtx).2 { val := 2 } = some "msaB" := by
  decide

/-- Witness of C1, amended: the three-ticket pass receives three distinct hashes. -/
theorem walletGetTickets_disjoint_of_distinct_hashes_witness :
    (receivedHashes exEnv (walletGetTicketsRun exEnv exCtx).trace).Nodup ∧
    ¬ (((walletGetTickets exEnv exCtx).1 { val := 3 }).isSome ∧
      ((walletGetTickets exEnv exCtx).2 { val := 3 }).isSome) :=
  ⟨by decide, walletGetTickets_disjoint_of_distinct_hashes exEnv exCtx (by decide) { val := 3 }⟩

/-- Counterexample to C2 as stated: the listed tickets 2 and 3 are distinct and
every step of the processing of both succeeds, with the evaluator returning
true for both, but the wallet answers both detail fetches with the same `TxID`:
the listed ticket 3 is not a key of the live mapping, and the value stored for
ticket 2 is `msaC`, not the `msaB` of the address matched for ticket 2. -/
theorem walletGetTickets_listed_distinct_not_enough :
    ([{ val := 2 }, { val := 3 }] : List Hash).Nodup ∧
    exEnvSameIdValid.GetTickets [] = .ok [{ val := 2 }, { val := 3 }] ∧
    SucceedsAt exEnvSameIdValid exCtx
      (stateAfter exEnvSameIdValid exCtx [{ val := 2 }, { val := 3 }] [])
      { val := 2 } exFactsB ∧
    SucceedsAt exEnvSameIdValid exCtx
      (stateAfter exEnvSameIdValid exCtx [{ val := 2 }, { val := 3 }] [{ val := 2 }])
      { val := 3 } exFactsSameIdValid ∧
    exFactsB.valid = true ∧ exFactsSameIdValid.valid = true ∧
    exFactsB.uvc.MultiSigAddress = "msaB" ∧
    (walletGetTickets exEnvSameIdValid exCtx).2 { val := 3 } = none ∧
    (walletGetTickets exEnvSameIdValid exCtx).2 { val := 2 } = some "msaC" := by
  refine ⟨by decide, rfl, ⟨rfl, rfl, rfl, rfl, rfl, fun _ => ⟨rfl, rfl, rfl, rfl⟩⟩,
    ⟨rfl, rfl, rfl, rfl, rfl, fun _ => ⟨rfl, rfl, rfl, rfl⟩⟩, rfl, rfl, rfl, by decide,
    by decide⟩

/-- Witness of C2, amended: ticket A is flagged, the fee of B is valid, the fee
of C is not; A and B end in the live mapping and C in the ignored mapping. -/
theorem walletGetTickets_sorts_by_flag_and_fee_witness :
    (walletGetTickets exEnv exCtx).2 { val := 1 } = some "msaA" ∧
    (walletGetTickets exEnv exCtx).2 { val := 2 } = some "msaB" ∧
    (walletGetTickets exEnv exCtx).1 { val := 3 } = some "msaC" ∧
    ¬ (walletGetTickets exEnv exCtx).2 { val := 3 } = some "msaC" := by
  have h := walletGetTickets_sorts_by_flag_and_fee exEnv exCtx
    [{ val := 1 }, { val := 2 }, { val := 3 }] exFacts rfl
    (fun i hi =>
      match i, hi with
      | 0, _ => ⟨rfl, rfl, rfl, rfl, rfl, fun _ => ⟨rfl, rfl, rfl, rfl⟩⟩
      | 1, _ => ⟨rfl, rfl, rfl, rfl, rfl, fun _ => ⟨rfl, rfl, rfl, rfl⟩⟩
      | 2, _ => ⟨rfl, rfl, rfl, rfl, rfl, fun _ => ⟨rfl, rfl, rfl, rfl⟩⟩
      | n + 3, hn => absurd hn (by simp))
    (fun i j hi hj hij =>
      match i, hi, j, hj, hij with
      | 0, _, 0, _, _ => rfl
      | 1, _, 1, _, _ => rfl
      | 2, _, 2, _, _ => rfl
      | 0, _, 1, _, h => absurd h (by decide)
      | 0, _, 2, _, h => absurd h (by decide)
      | 1, _, 0, _, h => absurd h (by decide)
      | 1, _, 2, _, h => absurd h (by decide)
      | 2, _, 0, _, h => absurd h (by decide)
      | 2, _, 1, _, h => absurd h (by decide)
      | n + 3, hn, _, _, _ => absurd hn (by simp)
      | _, _, n + 3, hn, _ => absurd hn (by simp))
  refine ⟨(h { val := 1 } "msaA").1.mpr ⟨0, by decide, rfl, Or.inl rfl, rfl⟩,
    (h { val := 2 } "msaB").1.mpr ⟨1, by decide, rfl, Or.inr rfl, rfl⟩,
    (h { val := 3 } "msaC").2.mpr ⟨2, by decide, rfl, rfl, rfl, rfl⟩, ?_⟩
  intro hlive
  obtain ⟨i, hi, hh, hor, _⟩ := (h { val := 3 } "msaC").1.mp hlive
  match i, hi, hh, hor with
  | 0, _, hh, _ => exact absurd hh (by decide)
  | 1, _, hh, _ => exact absurd hh (by decide)
  | 2, _, _, hor =>
    rcases hor with h1 | h1
    · exact absurd h1 (by decide)
    · exact absurd h1 (by decide)
  | n + 3, hn, _, _ => exact absurd hn (by simp)

/-- Witness of C3: ticket A of the three-ticket pass is flagged. -/
theorem flagged_ticket_classified_live_witness :
    ((walletGetTickets exEnv exCtx).2 { val := 1 }).isSome ∧
    (walletGetTickets exEnv exCtx).1 { val := 1 } = none ∧
    (promiseBody exEnv exCtx exCtx.userVotingConfig { val := 1 }
        (stateAfter exEnv exCtx [{ val := 1 }, { val := 2 }, { val := 3 }] [])).trace =
      Event.Receive 0 { val := 1 } (.ok exGtA) ::
        (stateAfter exEnv exCtx [{ val := 1 }, { val := 2 }, { val := 3 }] []).trace :=
  flagged_ticket_classified_live exEnv exCtx [] [{ val := 2 }, { val := 3 }] { val := 1 }
    exGtA { Address := "userA" } { MultiSigAddress := "msaA" } { enc := "userA" } { val := 1 }
    rfl rfl (by decide) rfl rfl rfl rfl

/-- Counterexample to C4 as stated.  First pass: the first detail address that
is a key of the snapshot fails to decode, the loop goes on to the next entry and
the ticket receives an entry of the live mapping.  Second pass: the header
lookup issued for the first matching entry fails, the loop goes on to the next
entry, the lookup is issued again and succeeds, and the ticket receives an
entry of the live mapping. -/
theorem ticket_with_error_not_left_out :
    (firstMatch exCtx.userVotingConfig exGtTwoUsers.Details = some { Address := "userX" } ∧
      exEnvTwoUsers.DecodeAddress "userX" = .error (Error.external "bad address") ∧
      (walletGetTickets exEnvTwoUsers exCtx).2 { val := 2 } = some "msaB") ∧
    ((walletGetTicketsRun exEnvRetry exCtx).trace =
        [Event.evaluateStakePoolTicket { raw := "hexB" } 500 { enc := "userB" }
            (true, some (Error.external "diagnostic")),
          Event.GetBlockHeader { val := 101 } (.ok { Height := 500 }),
          Event.GetBlockHeader { val := 101 } (.error (Error.external "busy")),
          Event.Receive 0 { val := 2 } (.ok exGtTwoOutputs),
          Event.GetTransactionAsync { val := 2 },
          Event.GetTickets (.ok [{ val := 2 }])] ∧
      (walletGetTickets exEnvRetry exCtx).2 { val := 2 } = some "msaB") := by
  refine ⟨⟨by decide, rfl, by decide⟩, rfl, by decide⟩

/-- Witness of C4, amended: in a pass, the two header lookups issued for the
ticket fail (a third one would succeed) and the ticket is left out. -/
theorem ticket_with_error_left_out_witness :
    HitsError exEnvTwoFail exCtx (startState exEnvTwoFail [{ val := 2 }]) { val := 2 } ∧
    (promiseBody exEnvTwoFail exCtx exCtx.userVotingConfig { val := 2 }
        (startState exEnvTwoFail [{ val := 2 }])).liveTickets =
      (startState exEnvTwoFail [{ val := 2 }]).liveTickets ∧
    (promiseBody exEnvTwoFail exCtx exCtx.userVotingConfig { val := 2 }
        (startState exEnvTwoFail [{ val := 2 }])).ignoredLowFeeTickets =
      (startState exEnvTwoFail [{ val := 2 }]).ignoredLowFeeTickets :=
  have hissued : issuedBy (startState exEnvTwoFail [{ val := 2 }])
      (promiseBody exEnvTwoFail exCtx exCtx.userVotingConfig { val := 2 }
        (startState exEnvTwoFail [{ val := 2 }])) =
      [Event.GetBlockHeader { val := 101 } (.error (Error.external "busy")),
        Event.GetBlockHeader { val := 101 } (.error (Error.external "busy")),
        Event.Receive 0 { val := 2 } (.ok exGtTwoOutputs)] := rfl
  have herr : HitsError exEnvTwoFail exCtx (startState exEnvTwoFail [{ val := 2 }])
      { val := 2 } :=
    Or.inr ⟨exGtTwoOutputs, rfl, Or.inr (Or.inr (Or.inr ⟨{ val := 2 }, rfl, rfl,
      Or.inr (Or.inr ⟨{ val := 101 }, rfl, rfl, fun gbh hm => by
        rw [hissued] at hm
        simp at hm⟩)⟩))⟩
  ⟨herr, ticket_with_error_left_out exEnvTwoFail exCtx (startState exEnvTwoFail [{ val := 2 }])
    { val := 2 } herr⟩

/-- Counterexample to C5 as stated.  First pass: the first detail entry whose
address is a key of the snapshot belongs to user X, with voting address `msaX`;
its address does not decode, and the ticket is classified with the next entry:
the evaluator receives the address of user B and the live mapping stores
`msaB`.  Second pass: the first such entry belongs to user C, with voting
address `msaC`, and decodes; the header lookup issued at that entry fails, and
the ticket is classified with the next entry, of user B. -/
theorem ticket_not_classified_with_first_match :
    (firstMatch exCtx.userVotingConfig exGtTwoUsers.Details = some { Address := "userX" } ∧
      exCtx.userVotingConfig "userX" = some { MultiSigAddress := "msaX" } ∧
      (walletGetTickets exEnvTwoUsers exCtx).2 { val := 2 } = some "msaB" ∧
      (walletGetTicketsRun exEnvTwoUsers exCtx).trace =
        [Event.evaluateStakePoolTicket { raw := "hexB" } 500 { enc := "userB" }
            (true, some (Error.external "diagnostic")),
          Event.GetBlockHeader { val := 101 } (.ok { Height := 500 }),
          Event.Receive 0 { val := 2 } (.ok exGtTwoUsers),
          Event.GetTransactionAsync { val := 2 },
          Event.GetTickets (.ok [{ val := 2 }])]) ∧
    (firstMatch exCtx.userVotingConfig exGtTwoOutputs.Details = some { Address := "userC" } ∧
      exCtx.userVotingConfig "userC" = some { MultiSigAddress := "msaC" } ∧
      exEnvRetry.DecodeAddress "userC" = .ok { enc := "userC" } ∧
      (walletGetTickets exEnvRetry exCtx).2 { val := 2 } = some "msaB" ∧
      (walletGetTicketsRun exEnvRetry exCtx).trace =
        [Event.evaluateStakePoolTicket { raw := "hexB" } 500 { enc := "userB" }
            (true, some (Error.external "diagnostic")),
          Event.GetBlockHeader { val := 101 } (.ok { Height := 500 }),
          Event.GetBlockHeader { val := 101 } (.error (Error.external "busy")),
          Event.Receive 0 { val := 2 } (.ok exGtTwoOutputs),
          Event.GetTransactionAsync { val := 2 },
          Event.GetTickets (.ok [{ val := 2 }])]) := by
  refine ⟨⟨by decide, by decide, by decide, rfl⟩, by decide, by decide, rfl, by decide, rfl⟩

/-- Witness of C5, amended: in a pass where no header lookup fails, the entry of
user X is passed over and the ticket is placed with the entry of user B. -/
theorem ticket_uses_first_decodable_match_witness :
    issuedBy (startState exEnvTwoUsers [{ val := 2 }])
        (promiseBody exEnvTwoUsers exCtx exCtx.userVotingConfig { val := 2 }
          (startState exEnvTwoUsers [{ val := 2 }])) =
      [Event.evaluateStakePoolTicket { raw := "hexB" } 500 { enc := "userB" }
          (true, some (Error.external "diagnostic")),
        Event.GetBlockHeader { val := 101 } (.ok { Height := 500 }),
        Event.Receive 0 { val := 2 } (.ok exGtTwoUsers)] ∧
    (promiseBody exEnvTwoUsers exCtx exCtx.userVotingConfig { val := 2 }
        (startState exEnvTwoUsers [{ val := 2 }])).liveTickets { val := 2 } = some "msaB" ∧
    (promiseBody exEnvTwoUsers exCtx exCtx.userVotingConfig { val := 2 }
        (startState exEnvTwoUsers [{ val := 2 }]) =
      afterReceive (startState exEnvTwoUsers [{ val := 2 }]) { val := 2 } exGtTwoUsers ∨
    ∃ pre d post uvc addr hash,
      exGtTwoUsers.Details = pre ++ d :: post ∧
      (∀ x ∈ pre, exCtx.userVotingConfig x.Address = none ∨
        ∃ err, exEnvTwoUsers.DecodeAddress x.Address = .error err) ∧
      exCtx.userVotingConfig d.Address = some uvc ∧
      exEnvTwoUsers.DecodeAddress d.Address = .ok addr ∧
      exEnvTwoUsers.NewHashFromStr exGtTwoUsers.TxID = .ok hash ∧
      (((exCtx.addedLowFeeTicketsMSA hash).isSome ∧
          (promiseBody exEnvTwoUsers exCtx exCtx.userVotingConfig { val := 2 }
              (startState exEnvTwoUsers [{ val := 2 }])).liveTickets =
            (startState exEnvTwoUsers [{ val := 2 }]).liveTickets.set hash
              uvc.MultiSigAddress ∧
          (promiseBody exEnvTwoUsers exCtx exCtx.userVotingConfig { val := 2 }
              (startState exEnvTwoUsers [{ val := 2 }])).ignoredLowFeeTickets =
            (startState exEnvTwoUsers [{ val := 2 }]).ignoredLowFeeTickets ∧
          (promiseBody exEnvTwoUsers exCtx exCtx.userVotingConfig { val := 2 }
              (startState exEnvTwoUsers [{ val := 2 }])).trace =
            Event.Receive (startState exEnvTwoUsers [{ val := 2 }]).counter { val := 2 }
                (.ok exGtTwoUsers) ::
              (startState exEnvTwoUsers [{ val := 2 }]).trace) ∨
        (exCtx.addedLowFeeTicketsMSA hash = none ∧
          ∃ msgTx height res rest,
            (promiseBody exEnvTwoUsers exCtx exCtx.userVotingConfig { val := 2 }
                (startState exEnvTwoUsers [{ val := 2 }])).trace =
              Event.evaluateStakePoolTicket msgTx height addr res :: rest ∧
            ((res.1 = true ∧
                (promiseBody exEnvTwoUsers exCtx exCtx.userVotingConfig { val := 2 }
                    (startState exEnvTwoUsers [{ val := 2 }])).liveTickets =
                  (startState exEnvTwoUsers [{ val := 2 }]).liveTickets.set hash
                    uvc.MultiSigAddress ∧
                (promiseBody exEnvTwoUsers exCtx exCtx.userVotingConfig { val := 2 }
                    (startState exEnvTwoUsers [{ val := 2 }])).ignoredLowFeeTickets =
                  (startState exEnvTwoUsers [{ val := 2 }]).ignoredLowFeeTickets) ∨
              (res.1 = false ∧
                (promiseBody exEnvTwoUsers exCtx exCtx.userVotingConfig { val := 2 }
                    (startState exEnvTwoUsers [{ val := 2 }])).ignoredLowFeeTickets =
                  (startState exEnvTwoUsers [{ val := 2 }]).ignoredLowFeeTickets.set hash
                    uvc.MultiSigAddress ∧
                (promiseBody exEnvTwoUsers exCtx exCtx.userVotingConfig { val := 2 }
                    (startState exEnvTwoUsers [{ val := 2 }])).liveTickets =
                  (startState exEnvTwoUsers [{ val := 2 }]).liveTickets))))) :=
  have hissued : issuedBy (startState exEnvTwoUsers [{ val := 2 }])
      (promiseBody exEnvTwoUsers exCtx exCtx.userVotingConfig { val := 2 }
        (startState exEnvTwoUsers [{ val := 2 }])) =
      [Event.evaluateStakePoolTicket { raw := "hexB" } 500 { enc := "userB" }
          (true, some (Error.external "diagnostic")),
        Event.GetBlockHeader { val := 101 } (.ok { Height := 500 }),
        Event.Receive 0 { val := 2 } (.ok exGtTwoUsers)] := rfl
  ⟨hissued, by decide,
    ticket_uses_first_decodable_match exEnvTwoUsers exCtx
      (startState exEnvTwoUsers [{ val := 2 }]) { val := 2 } exGtTwoUsers rfl
      (fun blockHash err hm => by
        rw [hissued] at hm
        simp at hm)⟩

/-- Witness of C10: the detail fetch of ticket 9 fails; listing it between
tickets 1 and 2 does not change the result. -/
theorem failed_fetch_skips_that_ticket_alone_witness :
    walletGetTickets
        { exEnv with
          GetTickets := fun _ => .ok ([{ val := 1 }] ++ { val := 9 } :: [{ val := 2 }, { val := 3 }]) }
        exCtx =
      walletGetTickets
        { exEnv with GetTickets := fun _ => .ok ([{ val := 1 }] ++ [{ val := 2 }, { val := 3 }]) }
        exCtx :=
  failed_fetch_skips_that_ticket_alone exEnv exCtx [{ val := 1 }] [{ val := 2 }, { val := 3 }]
    { val := 9 } (Error.external "no such transaction")
    ⟨fun _ _ _ _ _ => rfl, fun _ _ _ => rfl, fun _ _ _ _ _ => rfl, rfl, rfl, rfl⟩ rfl

/-! ## The cache within a pass -/

theorem PassReaches.cacheMatches (env : Env) (ctx : appContext) (tickets : List Hash)
    (s : PassState) (h : PassReaches env ctx tickets s) : CacheMatchesLookups s := by
  induction h with
  | start => exact startState_cacheMatches env tickets
  | receive s ticket _ ih =>
    intro b
    show s.blockHashToHeightCache b = storedHeight (_ :: s.trace) b
    rw [storedHeight_cons _ _ _ (by rfl)]
    exact ih b
  | iteration s gt d _ ih => exact detailBody_cacheMatches env ctx _ gt d s ih

theorem detailsLoop_reaches (env : Env) (ctx : appContext) (tickets : List Hash)
    (gt : GetTransactionResult) :
    ∀ (ds : List TxDetail) (s : PassState), PassReaches env ctx tickets s →
      PassReaches env ctx tickets (detailsLoop env ctx ctx.userVotingConfig gt ds s) := by
  intro ds
  induction ds with
  | nil => intro s hs; exact hs
  | cons d rest ih =>
    intro s hs
    have h1 := PassReaches.iteration s gt d hs
    rw [detailsLoop]
    cases hb : detailBody env ctx ctx.userVotingConfig gt d s with
    | mk ctl s1 =>
      rw [hb] at h1
      cases ctl with
      | brk => exact h1
      | cont => exact ih s1 h1

theorem promiseBody_reaches (env : Env) (ctx : appContext) (tickets : List Hash)
    (ticket : Hash) (s : PassState) (hs : PassReaches env ctx tickets s) :
    PassReaches env ctx tickets (promiseBody env ctx ctx.userVotingConfig ticket s) := by
  have h1 := PassReaches.receive s ticket hs
  cases he : env.Receive s.trace s.counter ticket with
  | error err =>
    rw [promiseBody_error env ctx _ ticket s err he]
    rw [he] at h1
    exact h1
  | ok gt =>
    rw [promiseBody_ok env ctx _ ticket s gt he]
    rw [he] at h1
    exact detailsLoop_reaches env ctx tickets gt gt.Details _ h1

/-- The state between two promises of a pass is a state of the pass. -/
theorem stateAfter_reaches (env : Env) (ctx : appContext) (tickets done : List Hash) :
    PassReaches env ctx tickets (stateAfter env ctx tickets done) :=
  receiveLoop_induction env ctx ctx.userVotingConfig (PassReaches env ctx tickets)
    (fun t s hs => promiseBody_reaches env ctx tickets t s hs) done _ PassReaches.start

/-- C7: in every state of a pass, a resolve of a block hash issues
`GetBlockHeader` if and only if no earlier `GetBlockHeader` for that hash
succeeded in the pass.  After a success the hash is served from the cache with
the height first stored, the state is left as it is and no lookup is issued; a
failed lookup leaves the cache unchanged and the next resolve of the hash
issues the lookup again; a successful lookup stores the height, which the next
resolve returns without a lookup. -/
theorem resolveHeight_lookup_iff_no_earlier_success (env : Env) (ctx : appContext)
    (tickets : List Hash) (s : PassState) (blockHash : Hash)
    (hpass : PassReaches env ctx tickets s) :
    (IssuesLookup env blockHash s ↔ ¬ SucceededBefore s.trace blockHash) ∧
    (SucceededBefore s.trace blockHash →
      (storedHeight s.trace blockHash).isSome ∧
      resolveHeight env blockHash s = (storedHeight s.trace blockHash, s)) ∧
    (∀ err, ¬ SucceededBefore s.trace blockHash →
      env.GetBlockHeader s.trace blockHash = .error err →
      (resolveHeight env blockHash s).1 = none ∧
      (resolveHeight env blockHash s).2.blockHashToHeightCache = s.blockHashToHeightCache ∧
      IssuesLookup env blockHash (resolveHeight env blockHash s).2) ∧
    (∀ gbh, ¬ SucceededBefore s.trace blockHash →
      env.GetBlockHeader s.trace blockHash = .ok gbh →
      (resolveHeight env blockHash s).1 = some (toInt32 gbh.Height) ∧
      ¬ IssuesLookup env blockHash (resolveHeight env blockHash s).2 ∧
      resolveHeight env blockHash (resolveHeight env blockHash s).2 =
        (some (toInt32 gbh.Height), (resolveHeight env blockHash s).2)) := by
  obtain ⟨h1, h2, h3, h4, _⟩ := resolveHeight_of_cacheMatches env s blockHash
    (PassReaches.cacheMatches env ctx tickets s hpass)
  exact ⟨h1, h2, h3, h4⟩

/-- Witness of C7: in the pass with the node whose first lookup fails, the first
resolve issues a lookup, returns no height and leaves the cache as it is, and
the next resolve of the same hash issues the lookup again. -/
theorem resolveHeight_lookup_iff_no_earlier_success_witness :
    PassReaches exEnvRetry exCtx [{ val := 2 }] (startState exEnvRetry [{ val := 2 }]) ∧
    (resolveHeight exEnvRetry { val := 101 } (startState exEnvRetry [{ val := 2 }])).1 = none ∧
    (resolveHeight exEnvRetry { val := 101 }
        (startState exEnvRetry [{ val := 2 }])).2.blockHashToHeightCache =
      (startState exEnvRetry [{ val := 2 }]).blockHashToHeightCache ∧
    IssuesLookup exEnvRetry { val := 101 }
      (resolveHeight exEnvRetry { val := 101 } (startState exEnvRetry [{ val := 2 }])).2 :=
  ⟨PassReaches.start,
   (resolveHeight_lookup_iff_no_earlier_success exEnvRetry exCtx [{ val := 2 }]
      (startState exEnvRetry [{ val := 2 }]) { val := 101 } PassReaches.start).2.2.1
      (Error.external "busy")
      (by
        rintro ⟨gbh, hg⟩
        simp [startState, dispatchLoop] at hg)
      rfl⟩

end Stakepoold
